import Mathlib

/-! Token service, OTP service, authentication handlers and configuration proxy
of the management server.

A shallow embedding of `pkg/shared/jwt.go`, of the OTP service, the handlers
and the validators of `apps/management/api/auth.go`, and of the OVPN download of
`apps/management/api/api.go`.

Conventions of the embedding

* A Go `(T, error)` result, a runtime panic and `log.Fatal` are the four
  constructors of `Outcome`.
* `time.Now()` is an explicit argument, one argument per call site, in the
  order in which the source reads the clock.
* A Go `string` is a Lean `String` (Unicode text); `len(s)` is the byte length
  `String.utf8ByteSize`.
* The `golang-jwt/jwt/v5` package is modelled by the steps of its parser and
  validator.  The MAC and the text encoding of a token are arguments
  (`Primitives`); a token string is represented by what the parser reads in it
  (`TokenString`), so the parser reads in a signed token the header and claims
  that were written, as the JSON and base64url codecs do for Unicode text.
* A handler returns its reply (`Http.Reply`) and the state after the call.  The
  database, bcrypt, the manager and the network are outside the given sources:
  the database is two tables with the statements it received, a driver error
  is an input (`Env.dbFails`), and bcrypt, the manager and the network are
  arguments (`Bcrypt`, `Api.Manager`, `Api.Upstream`).
-/

/-! ## Results of a call -/

/-- Errors returned by the jwt package. -/
inductive LibError
  /-- The token string does not parse: `ErrTokenMalformed`. -/
  | malformed
  /-- The header names no registered algorithm: `ErrTokenUnverifiable`. -/
  | algUnavailable
  /-- The key function returned an error: `ErrTokenUnverifiable`. -/
  | keyFuncFailed (alg : String)
  /-- The signature does not verify: `ErrTokenSignatureInvalid`. -/
  | signatureInvalid
  /-- The claims validator failed: `ErrTokenInvalidClaims`, with `ErrTokenExpired`
  and `ErrTokenNotValidYet` as collected. -/
  | invalidClaims (expired notValidYet : Bool)
  deriving DecidableEq

/-- Errors built by `fmt.Errorf` in `jwt.go`, `auth.go` and `api.go`. -/
inductive Error
  /-- Text "phone number cannot be empty". -/
  | phoneNumberEmpty
  /-- Text "failed to sign token: ...". -/
  | failedToSign
  /-- Text "token cannot be empty". -/
  | tokenEmpty
  /-- Text "failed to parse token: ...". -/
  | failedToParse (e : LibError)
  /-- Text "token is invalid". -/
  | tokenInvalid
  /-- Text "token has expired". -/
  | tokenExpired
  /-- Text "cannot refresh invalid token: ...". -/
  | cannotRefresh (e : Error)
  /-- Text "token is not close to expiration yet (expires in ...)". -/
  | notCloseToExpiration (timeUntilExpiry : Int)
  /-- Text "failed to generate new token: ...". -/
  | failedToGenerate (e : Error)
  /-- Text "no OTP found for this phone number". -/
  | noOTPFound
  /-- Text "phone number must be 10-15 digits". -/
  | phoneNumberLength
  /-- Text "phone number must contain only digits and optional + prefix". -/
  | phoneNumberFormat
  /-- Text "password must be at least 8 characters long". -/
  | passwordTooShort
  /-- Text "password must be at most 128 characters long". -/
  | passwordTooLong
  /-- Text "password must contain at least one uppercase letter". -/
  | passwordNoUpper
  /-- Text "password must contain at least one lowercase letter". -/
  | passwordNoLower
  /-- Text "password must contain at least one digit". -/
  | passwordNoDigit
  /-- Text "failed to create request: ...". -/
  | failedToCreateRequest
  /-- Text "failed to download OVPN file: ...", on a transport error. -/
  | failedToDownload
  /-- Text "OVPN download failed with status: ...". -/
  | downloadStatus (statusCode : Int)
  /-- Text "failed to read OVPN content: ...". -/
  | failedToRead
  /-- An error of an OTP service other than the mock one. -/
  | otpService (text : String)
  /-- Text "missing authorization header". -/
  | missingAuthorizationHeader
  /-- Text "invalid authorization header format". -/
  | invalidAuthorizationHeaderFormat
  /-- Text "invalid token: ...". -/
  | invalidToken (e : Error)
  /-- Text "token missing phone number claim". -/
  | tokenMissingPhoneNumber
  /-- Text "username must be 3-32 characters". -/
  | usernameLength
  /-- Text "username must contain only alphanumeric characters and underscores". -/
  | usernameCharacters
  /-- Text "username '...' is reserved". -/
  | usernameReserved (username : String)
  /-- Text "port must be between 1 and 65535". -/
  | portRange
  /-- Text "protocol must be 'udp' or 'tcp'". -/
  | protocolInvalid
  /-- An error that the manager or the database driver returns. -/
  | external (text : String)
  deriving DecidableEq

/-- Ways in which a Go call ends. -/
inductive Outcome (α : Type)
  /-- The call returns the value with a nil error. -/
  | ok (a : α)
  /-- The call returns the zero value with a non-nil error. -/
  | error (e : Error)
  /-- The call panics with a nil pointer dereference. -/
  | panic
  /-- The call ends the process through `log.Fatal`. -/
  | fatal
  deriving DecidableEq

/-- Whether the call returned a value and a nil error. -/
def Outcome.isOk {α : Type} : Outcome α → Bool
  | .ok _ => true
  | _ => false

/-! ## Package `time` -/

/-- An instant, in nanoseconds since the Unix epoch. -/
abbrev Time := Int

/-- A `time.Duration`, in nanoseconds. -/
abbrev Duration := Int

namespace GoTime

/-- The constant `time.Second`. -/
def Second : Duration := 1000000000

/-- The constant `time.Hour`. -/
def Hour : Duration := 3600 * Second

/-- Largest `time.Duration`. -/
def maxDuration : Duration := 9223372036854775807

/-- Smallest `time.Duration`. -/
def minDuration : Duration := -9223372036854775808

/-- Seconds from January 1 of year 1 to the Unix epoch. -/
def unixToInternal : Int := 62135596800

/-- Method `Time.Add`. -/
def Add (t : Time) (d : Duration) : Time := t + d

/-- Method `Time.Before`. -/
def Before (t u : Time) : Bool := decide (t < u)

/-- Method `Time.Truncate`: round down to a multiple of `d` since the zero time. -/
def Truncate (t : Time) (d : Duration) : Time :=
  if d ≤ 0 then t else t - (t + unixToInternal * Second) % d

/-- Method `Time.Sub`: the difference, saturated to the range of a duration. -/
def Sub (t u : Time) : Duration :=
  if t - u > maxDuration then maxDuration
  else if t - u < minDuration then minDuration
  else t - u

/-- Function `time.Until`, with the clock reading `now`. -/
def Until (t now : Time) : Duration := Sub t now

end GoTime

/-! ## Package `jwt` -/

namespace Jwt

/-- Hash functions behind the HMAC signing methods. -/
inductive CryptoHash
  | SHA256
  | SHA384
  | SHA512
  deriving DecidableEq

/-- Signing methods registered by the package, by Go type. -/
inductive SigningMethod
  /-- Type `*SigningMethodHMAC`: HS256, HS384, HS512. -/
  | HMAC (hash : CryptoHash)
  /-- Type `*SigningMethodRSA`: RS256, RS384, RS512. -/
  | RSA (hash : CryptoHash)
  /-- Type `*SigningMethodRSAPSS`: PS256, PS384, PS512. -/
  | RSAPSS (hash : CryptoHash)
  /-- Type `*SigningMethodECDSA`: ES256, ES384, ES512. -/
  | ECDSA (hash : CryptoHash)
  /-- Type `*SigningMethodEd25519`: EdDSA. -/
  | Ed25519
  /-- The `none` method. -/
  | None
  deriving DecidableEq

/-- Function `jwt.GetSigningMethod`. -/
def GetSigningMethod (alg : String) : Option SigningMethod :=
  if alg = "HS256" then some (.HMAC .SHA256)
  else if alg = "HS384" then some (.HMAC .SHA384)
  else if alg = "HS512" then some (.HMAC .SHA512)
  else if alg = "RS256" then some (.RSA .SHA256)
  else if alg = "RS384" then some (.RSA .SHA384)
  else if alg = "RS512" then some (.RSA .SHA512)
  else if alg = "PS256" then some (.RSAPSS .SHA256)
  else if alg = "PS384" then some (.RSAPSS .SHA384)
  else if alg = "PS512" then some (.RSAPSS .SHA512)
  else if alg = "ES256" then some (.ECDSA .SHA256)
  else if alg = "ES384" then some (.ECDSA .SHA384)
  else if alg = "ES512" then some (.ECDSA .SHA512)
  else if alg = "EdDSA" then some .Ed25519
  else if alg = "none" then some .None
  else none

/-- The variable `jwt.TimePrecision`. -/
def TimePrecision : Duration := GoTime.Second

/-- Function `jwt.NewNumericDate`. -/
def NewNumericDate (t : Time) : Time := GoTime.Truncate t TimePrecision

/-- Type `jwt.RegisteredClaims`; a nil `*NumericDate` is `none`. -/
structure RegisteredClaims where
  Issuer : String
  Subject : String
  Audience : List String
  ExpiresAt : Option Time
  NotBefore : Option Time
  IssuedAt : Option Time
  ID : String
  deriving DecidableEq

end Jwt

/-- Claims represents the JWT claims structure. -/
structure Claims extends Jwt.RegisteredClaims where
  PhoneNumber : String
  UserID : Int
  deriving DecidableEq

namespace Jwt

/-- What `Parser.ParseUnverified` reads in a token string of three segments. -/
structure Segments where
  /-- The `alg` entry of the decoded header. -/
  alg : String
  /-- The decoded second segment. -/
  claims : Claims
  /-- The first two segments as transmitted: the text that is signed. -/
  signingString : String
  /-- The decoded third segment, `none` when it is not base64url text. -/
  signature : Option String
  deriving DecidableEq

/-- A token string: either text in which the parser finds no header, claims and
signature (the empty string among them), or three readable segments. -/
inductive TokenString
  | raw (s : String)
  | compact (p : Segments)
  deriving DecidableEq

/-- The primitives the package is linked against. -/
structure Primitives where
  /-- The MAC of a message under a key, per hash function. -/
  hmac : CryptoHash → String → String → String
  /-- Method `Token.SigningString`: the encoded header and claims. -/
  signingString : String → Claims → String

/-- Type `jwt.Token` after parsing. -/
structure Token where
  /-- The `alg` entry of the header. -/
  Header : String
  Method : SigningMethod
  Claims : Claims
  Signature : String
  Valid : Bool
  deriving DecidableEq

/-- Method `SigningMethod.Verify` with a key of type `[]byte`: only the HMAC
methods take such a key. -/
def Verify (P : Primitives) (m : SigningMethod) (signingString signature key : String) : Bool :=
  match m with
  | .HMAC h => decide (P.hmac h key signingString = signature)
  | _ => false

/-- Method `Token.SignedString` for a token made by `NewWithClaims` with the
HMAC method named `alg` and a `[]byte` key: signing with such a key returns no
error. -/
def SignedString (P : Primitives) (alg : String) (h : CryptoHash) (claims : Claims)
    (key : String) : Except LibError TokenString :=
  .ok (.compact
    { alg := alg
      claims := claims
      signingString := P.signingString alg claims
      signature := some (P.hmac h key (P.signingString alg claims)) })

/-- Method `Parser.ParseUnverified`. -/
def ParseUnverified (tokenString : TokenString) : Except LibError (Token × Segments) :=
  match tokenString with
  | .raw _ => .error .malformed
  | .compact p =>
    match GetSigningMethod p.alg with
    | none => .error .algUnavailable
    | some m =>
      .ok ({ Header := p.alg, Method := m, Claims := p.claims, Signature := "", Valid := false }, p)

/-- Method `Validator.Validate` with default options at the clock reading `now`:
the expiry and not-before checks, each skipped when the claim is absent. -/
def Validate (now : Time) (claims : Claims) : Except LibError Unit :=
  let expired : Bool :=
    match claims.ExpiresAt with
    | none => false
    | some exp => !GoTime.Before now exp
  let notValidYet : Bool :=
    match claims.NotBefore with
    | none => false
    | some nbf => GoTime.Before now nbf
  if expired || notValidYet then .error (.invalidClaims expired notValidYet) else .ok ()

/-- Method `Parser.ParseWithClaims`: parse, decode the signature, ask the key
function for the key, verify the signature, validate the claims.  The validator
reads the clock as `now`. -/
def ParseWithClaims (P : Primitives) (now : Time) (tokenString : TokenString)
    (keyFunc : Token → Except LibError String) : Except LibError Token :=
  match ParseUnverified tokenString with
  | .error e => .error e
  | .ok (token, parts) =>
    match parts.signature with
    | none => .error .malformed
    | some signature =>
      let token := { token with Signature := signature }
      match keyFunc token with
      | .error e => .error e
      | .ok key =>
        if !Verify P token.Method parts.signingString token.Signature key then
          .error .signatureInvalid
        else
          match Validate now token.Claims with
          | .error e => .error e
          | .ok _ => .ok { token with Valid := true }

end Jwt

/-! ## Package `shared`: `jwt.go` -/

namespace Shared

open Jwt

/-- GetJWTSecret returns the JWT secret from the environment variable, whose
value is `secret`. -/
def GetJWTSecret (secret : String) : Outcome String :=
  if secret = "" then .fatal
  else if secret.utf8ByteSize < 32 then .fatal
  else .ok secret

/-- GenerateJWT generates a new JWT token for a user.  The clock is read as
`tExp` for the expiration time, `tIat` for issued-at and `tNbf` for not-before. -/
def GenerateJWT (P : Primitives) (env : String) (tExp tIat tNbf : Time)
    (phoneNumber : String) (userID : Int) : Outcome TokenString :=
  if phoneNumber = "" then .error .phoneNumberEmpty
  else
    match GetJWTSecret env with
    | .fatal => .fatal
    | .panic => .panic
    | .error e => .error e
    | .ok secret =>
      let expirationTime := GoTime.Add tExp (24 * GoTime.Hour)
      let claims : Claims :=
        { PhoneNumber := phoneNumber
          UserID := userID
          ExpiresAt := some (NewNumericDate expirationTime)
          IssuedAt := some (NewNumericDate tIat)
          NotBefore := some (NewNumericDate tNbf)
          Issuer := "chameleonvpn-auth"
          Subject := phoneNumber
          Audience := []
          ID := "" }
      match SignedString P "HS256" .SHA256 claims secret with
      | .error _ => .error .failedToSign
      | .ok tokenString => .ok tokenString

/-- The key function that ValidateJWT hands to the parser. -/
def keyFunc (secret : String) (token : Token) : Except LibError String :=
  match token.Method with
  | .HMAC _ => .ok secret
  | _ => .error (.keyFuncFailed token.Header)

/-- ValidateJWT validates a JWT token and returns the claims.  The clock is
read as `tLib` by the validator of the package and as `tChk` by the expiry
check of the function.  The type assertion on `token.Claims` holds for every
parsed token, as the parser fills the `&Claims{}` it is given; a nil
`claims.ExpiresAt` makes the call of `Before` panic. -/
def ValidateJWT (P : Primitives) (env : String) (tLib tChk : Time)
    (tokenString : TokenString) : Outcome Claims :=
  if tokenString = .raw "" then .error .tokenEmpty
  else
    match GetJWTSecret env with
    | .fatal => .fatal
    | .panic => .panic
    | .error e => .error e
    | .ok secret =>
      match ParseWithClaims P tLib tokenString (keyFunc secret) with
      | .error err => .error (.failedToParse err)
      | .ok token =>
        let claims := token.Claims
        if !token.Valid then .error .tokenInvalid
        else
          match claims.ExpiresAt with
          | none => .panic
          | some exp =>
            if GoTime.Before exp tChk then .error .tokenExpired
            else .ok claims

/-- RefreshJWT refreshes an existing JWT token.  The clock is read as `tLib`
and `tChk` by ValidateJWT, as `tUntil` by `time.Until`, and as `tExp`, `tIat`,
`tNbf` by GenerateJWT. -/
def RefreshJWT (P : Primitives) (env : String) (tLib tChk tUntil tExp tIat tNbf : Time)
    (tokenString : TokenString) : Outcome TokenString :=
  match ValidateJWT P env tLib tChk tokenString with
  | .fatal => .fatal
  | .panic => .panic
  | .error err => .error (.cannotRefresh err)
  | .ok claims =>
    match claims.ExpiresAt with
    | none => .panic
    | some exp =>
      let timeUntilExpiry := GoTime.Until exp tUntil
      if timeUntilExpiry > 1 * GoTime.Hour then
        .error (.notCloseToExpiration timeUntilExpiry)
      else
        match GenerateJWT P env tExp tIat tNbf claims.PhoneNumber claims.UserID with
        | .fatal => .fatal
        | .panic => .panic
        | .error err => .error (.failedToGenerate err)
        | .ok newToken => .ok newToken

end Shared

/-- A stand-in for the primitives, to evaluate the model on concrete inputs. -/
def demoPrimitives : Jwt.Primitives where
  hmac := fun h key msg =>
    (match h with
      | .SHA256 => "mac256("
      | .SHA384 => "mac384("
      | .SHA512 => "mac512(") ++ key ++ "," ++ msg ++ ")"
  signingString := fun alg claims => alg ++ "." ++ claims.PhoneNumber

/-- A secret of 32 bytes. -/
def demoSecret : String := "0123456789abcdef0123456789abcdef"


namespace Shared

open Jwt

/-- The claims that GenerateJWT builds from its arguments and clock reads. -/
def issuedClaims (tExp tIat tNbf : Time) (phoneNumber : String) (userID : Int) : Claims :=
  { PhoneNumber := phoneNumber
    UserID := userID
    ExpiresAt := some (NewNumericDate (GoTime.Add tExp (24 * GoTime.Hour)))
    IssuedAt := some (NewNumericDate tIat)
    NotBefore := some (NewNumericDate tNbf)
    Issuer := "chameleonvpn-auth"
    Subject := phoneNumber
    Audience := []
    ID := "" }

/-- The segments of the token that GenerateJWT signs under `secret`. -/
def issuedSegments (P : Primitives) (secret : String) (tExp tIat tNbf : Time)
    (phoneNumber : String) (userID : Int) : Segments :=
  { alg := "HS256"
    claims := issuedClaims tExp tIat tNbf phoneNumber userID
    signingString := P.signingString "HS256" (issuedClaims tExp tIat tNbf phoneNumber userID)
    signature := some (P.hmac .SHA256 secret
      (P.signingString "HS256" (issuedClaims tExp tIat tNbf phoneNumber userID))) }

/-- The token that GenerateJWT signs under `secret`. -/
def issuedToken (P : Primitives) (secret : String) (tExp tIat tNbf : Time)
    (phoneNumber : String) (userID : Int) : TokenString :=
  .compact (issuedSegments P secret tExp tIat tNbf phoneNumber userID)

end Shared

/-! ## The mock OTP service of `auth.go` -/

namespace Api

/-- MockOTPService is a mock implementation for development; the Go map
`otpStore` is a function from keys to the stored code, `none` where the map
has no entry. -/
structure MockOTPService where
  otpStore : String → Option String

/-- VerifyOTP verifies the OTP: the returned `(bool, error)` and the service
after the call. -/
def MockOTPService.VerifyOTP (m : MockOTPService) (phoneNumber otp : String) :
    Outcome Bool × MockOTPService :=
  match m.otpStore phoneNumber with
  | none => (.error .noOTPFound, m)
  | some storedOTP =>
    if storedOTP ≠ otp then (.ok false, m)
    else (.ok true, { otpStore := fun k => if k = phoneNumber then none else m.otpStore k })

end Api

/-! ## Package `fmt` and more of package `time` -/

namespace GoTime

/-- Method `Time.Unix`: whole seconds since the Unix epoch. -/
def Unix (t : Time) : Int := t / Second

end GoTime

namespace Fmt

/-- The verb `%d` on a natural number. -/
def decimal (n : Nat) : String := Nat.repr n

/-- Zero padding on the left up to `width` characters. -/
def zeroPad (width : Nat) (s : String) : String :=
  String.mk (List.replicate (width - s.length) '0') ++ s

/-- Function `fmt.Sprintf("%06d", n)`: the sign comes first and counts in the
width. -/
def Sprintf06d (n : Int) : String :=
  if n < 0 then "-" ++ zeroPad 5 (decimal n.natAbs) else zeroPad 6 (decimal n.toNat)

end Fmt

/-! ## The mock OTP service, continued -/

namespace Api

/-- GenerateOTP generates a 6-digit OTP from the clock reading `now`; the Go
operator `%` truncates towards zero. -/
def MockOTPService.GenerateOTP (now : Time) : String :=
  Fmt.Sprintf06d (Int.tmod (GoTime.Unix now) 1000000)

/-- SendOTP sends a mock OTP: the returned `(string, error)` and the service
after the call.  The line written to the server log is left out. -/
def MockOTPService.SendOTP (m : MockOTPService) (now : Time) (phoneNumber : String) :
    Outcome String × MockOTPService :=
  let otp := MockOTPService.GenerateOTP now
  (.ok otp, { otpStore := fun k => if k = phoneNumber then some otp else m.otpStore k })

/-- A call on the OTP service. -/
inductive OTPCall
  | send (now : Time) (phoneNumber : String)
  | verify (phoneNumber otp : String)

/-- The service after a sequence of calls. -/
def MockOTPService.run (m : MockOTPService) : List OTPCall → MockOTPService
  | [] => m
  | .send now phoneNumber :: calls => MockOTPService.run (m.SendOTP now phoneNumber).2 calls
  | .verify phoneNumber otp :: calls => MockOTPService.run (m.VerifyOTP phoneNumber otp).2 calls

/-- Whether the call is a SendOTP for the identifier. -/
def OTPCall.sendsTo (phoneNumber : String) : OTPCall → Bool
  | .send _ p => decide (p = phoneNumber)
  | .verify _ _ => false

end Api

/-! ## Packages `strings` and `net/http` -/

namespace Strings

/-- Function `strings.ReplaceAll(s, old, "")` for a one-character `old`. -/
def removeAll (old : Char) (s : String) : String :=
  String.mk (s.data.filter (fun c => c ≠ old))

/-- Function `strings.TrimPrefix`. -/
def TrimPrefix (s lead : String) : String :=
  if lead.data.isPrefixOf s.data then String.mk (s.data.drop lead.data.length) else s

/-- The pieces of a character list between occurrences of `sep`. -/
def splitChars (sep : Char) : List Char → List (List Char)
  | [] => [[]]
  | c :: cs =>
    if c = sep then [] :: splitChars sep cs
    else
      match splitChars sep cs with
      | [] => [[c]]
      | piece :: pieces => (c :: piece) :: pieces

/-- Function `strings.Split(s, sep)` for a one-character `sep`. -/
def Split (s : String) (sep : Char) : List String :=
  (splitChars sep s.data).map String.mk

end Strings

namespace Http

/-- Status codes of `net/http` that the handlers use. -/
def StatusOK : Nat := 200

/-- The constant `http.StatusCreated`. -/
def StatusCreated : Nat := 201

/-- The constant `http.StatusBadRequest`. -/
def StatusBadRequest : Nat := 400

/-- The constant `http.StatusUnauthorized`. -/
def StatusUnauthorized : Nat := 401

/-- The constant `http.StatusForbidden`. -/
def StatusForbidden : Nat := 403

/-- The constant `http.StatusNotFound`. -/
def StatusNotFound : Nat := 404

/-- The constant `http.StatusMethodNotAllowed`. -/
def StatusMethodNotAllowed : Nat := 405

/-- The constant `http.StatusConflict`. -/
def StatusConflict : Nat := 409

/-- The constant `http.StatusInternalServerError`. -/
def StatusInternalServerError : Nat := 500

/-- A value in the `Data` map of a JSON response. -/
inductive JSONValue
  | str (s : String)
  | num (n : Int)
  deriving DecidableEq

/-- AuthResponse represents an authentication response; the `Data` map is
listed by key, an absent map is the empty list and an absent token is `none`. -/
structure AuthResponse where
  Success : Bool
  Message : String
  /-- The error printed with `%v` after the message, if any. -/
  MessageError : Option Error
  Data : List (String × JSONValue)
  Token : Option Jwt.TokenString
  deriving DecidableEq

/-- The body written to the `http.ResponseWriter`. -/
inductive Body
  /-- A JSON document written by `json.NewEncoder(w).Encode`. -/
  | json (a : AuthResponse)
  /-- The text written by `http.Error`, with the error printed after it, if any. -/
  | text (message : String) (err : Option Error)
  /-- Bytes written by `w.Write`. -/
  | bytes (b : List UInt8)
  deriving DecidableEq

/-- What a handler writes: status code, the headers it sets, body. -/
structure Response where
  StatusCode : Nat
  Header : List (String × String)
  Body : Body
  deriving DecidableEq

/-- Function `http.Error`. -/
def Error (message : String) (err : Option Error) (code : Nat) : Response :=
  { StatusCode := code
    Header := [("Content-Type", "text/plain; charset=utf-8"), ("X-Content-Type-Options", "nosniff")]
    Body := .text message err }

/-- The values that JWTAuthMiddleware puts in the request context. -/
structure Context where
  claims : Claims
  phone_number : String
  user_id : Int
  deriving DecidableEq

/-- How the handling of a request ends. -/
inductive Reply
  /-- The handler wrote this response and returned. -/
  | sent (r : Response)
  /-- The middleware called the wrapped handler with this context. -/
  | next (ctx : Context)
  /-- The handler panicked; no response is written. -/
  | panic
  /-- The process ended through `log.Fatal`. -/
  | fatal
  deriving DecidableEq

/-- The parts of an `*http.Request` that the handlers read.  The Authorization
header is given by the list `strings.Split(header, " ")`, its pieces being
token strings; the absent or empty header is the one piece `raw ""`.  The body
is given by what `json.Decode` reads in it, `none` when decoding fails. -/
structure Request (β : Type) where
  Method : String
  Path : String
  Authorization : List Jwt.TokenString
  Body : Option β
  RemoteAddr : String

end Http

/-! ## The database behind `*sql.DB` and package `bcrypt` -/

namespace Sql

/-- A row of the table `auth_users`, with the columns the handlers name. -/
structure AuthUser where
  id : Int
  phone_number : String
  password_hash : String
  created_at : Time
  last_login : Time
  active : Bool
  deriving DecidableEq

/-- A row of the table `audit_log`. -/
structure AuditRow where
  timestamp : Time
  action : String
  username : String
  details : String
  ip_address : String
  server_id : String
  deriving DecidableEq

/-- The statements that `auth.go` sends to the database. -/
inductive Stmt
  /-- Statement `SELECT id FROM auth_users WHERE phone_number = $1`. -/
  | selectID (phone_number : String)
  /-- Statement `INSERT INTO auth_users (...) VALUES (...) RETURNING id`. -/
  | insertUser (phone_number password_hash : String) (created_at last_login : Time)
      (active : Bool)
  /-- Statement `SELECT id, password_hash, active FROM auth_users WHERE phone_number = $1`. -/
  | selectLogin (phone_number : String)
  /-- Statement `UPDATE auth_users SET last_login = $1 WHERE id = $2`. -/
  | updateLastLogin (last_login : Time) (id : Int)
  /-- Statement `INSERT INTO audit_log (...) VALUES (...)`. -/
  | insertAudit (row : AuditRow)
  deriving DecidableEq

/-- The database: the two tables, and the statements received so far, kept to
tell which calls reached the store. -/
structure DB where
  auth_users : List AuthUser
  audit_log : List AuditRow
  statements : List Stmt
  deriving DecidableEq

/-- The database after it received a statement. -/
def DB.receive (db : DB) (s : Stmt) : DB :=
  { db with statements := db.statements ++ [s] }

/-- The first row of `auth_users` with the phone number, which `QueryRow`
returns; `none` stands for `sql.ErrNoRows`. -/
def DB.findUser (db : DB) (phone_number : String) : Option AuthUser :=
  db.auth_users.find? (fun u => decide (u.phone_number = phone_number))

end Sql

/-- The functions of `golang.org/x/crypto/bcrypt` that `auth.go` calls. -/
structure Bcrypt where
  /-- Function `bcrypt.GenerateFromPassword(password, cost)` with the salt it
  draws; `none` stands for a non-nil error. -/
  GenerateFromPassword : String → Nat → String → Option String
  /-- Whether `bcrypt.CompareHashAndPassword(hash, password)` returns nil. -/
  CompareHashAndPassword : String → String → Bool

/-! ## Package `api`: `auth.go` -/

namespace Api

open Http Sql

/-- OTPService interface for OTP verification, over the state `σ` of the
implementation: each method returns its Go result and the state afterwards. -/
structure OTPService (σ : Type) where
  SendOTP : σ → String → Outcome String × σ
  VerifyOTP : σ → String → String → Outcome Bool × σ

/-- The mock service as an OTPService, with the clock reading of GenerateOTP. -/
def MockOTPService.service (now : Time) : OTPService MockOTPService :=
  { SendOTP := fun m phoneNumber => m.SendOTP now phoneNumber
    VerifyOTP := fun m phoneNumber otp => m.VerifyOTP phoneNumber otp }

/-- AuthHandler handles authentication operations: the database and the state
of the OTP service. -/
structure AuthHandler (σ : Type) where
  db : DB
  otp : σ

/-- What a call of a handler of `auth.go` takes from outside the request.  The
clock is read as `now 0`, `now 1`, ... in the order of the reads of the call; the
statement that the database receives as its `n`-th, counted from 0, meets a
driver error when `dbFails n`; `newID` is the id that the database gives to an
inserted user and `salt` the salt that bcrypt draws. -/
structure Env where
  P : Jwt.Primitives
  B : Bcrypt
  JWT_SECRET : String
  now : Nat → Time
  dbFails : Nat → Bool
  newID : Int
  salt : String

/-- RegisterRequest represents a user registration request. -/
structure RegisterRequest where
  PhoneNumber : String
  Password : String
  OTP : String
  deriving DecidableEq

/-- LoginRequest represents a user login request. -/
structure LoginRequest where
  PhoneNumber : String
  Password : String
  deriving DecidableEq

/-- The body of a send-otp request. -/
structure SendOTPRequest where
  PhoneNumber : String
  deriving DecidableEq

/-- The regular expression `^\+?[0-9]+$`. -/
def matchesPhonePattern (s : String) : Bool :=
  let digits :=
    match s.data with
    | '+' :: rest => rest
    | cs => cs
  !digits.isEmpty && digits.all (fun c => decide ('0' ≤ c ∧ c ≤ '9'))

/-- validatePhoneNumber validates phone number format; `none` is the nil error. -/
def validatePhoneNumber (phoneNumber : String) : Option Error :=
  let phoneNumber := Strings.removeAll ' ' phoneNumber
  let phoneNumber := Strings.removeAll '-' phoneNumber
  if phoneNumber.utf8ByteSize < 10 ∨ phoneNumber.utf8ByteSize > 15 then
    some .phoneNumberLength
  else if !matchesPhonePattern phoneNumber then some .phoneNumberFormat
  else none

/-- validatePassword validates password strength; `none` is the nil error. -/
def validatePassword (password : String) : Option Error :=
  if password.utf8ByteSize < 8 then some .passwordTooShort
  else if password.utf8ByteSize > 128 then some .passwordTooLong
  else if !password.data.any (fun c => decide ('A' ≤ c ∧ c ≤ 'Z')) then some .passwordNoUpper
  else if !password.data.any (fun c => decide ('a' ≤ c ∧ c ≤ 'z')) then some .passwordNoLower
  else if !password.data.any (fun c => decide ('0' ≤ c ∧ c ≤ '9')) then some .passwordNoDigit
  else none

/-- The method sendError sends an error response. -/
def sendError (message : String) (err : Option Error) (statusCode : Nat) : Response :=
  { StatusCode := statusCode
    Header := [("Content-Type", "application/json")]
    Body := .json
      { Success := false, Message := message, MessageError := err, Data := [], Token := none } }

/-- The method logAuditEvent logs an authentication event to the audit log, at
the clock reading `now`; a failure of the statement is only written to the
server log. -/
def logAuditEvent (E : Env) (db : DB) (now : Time) (action username details ipAddress : String) :
    DB :=
  let row : AuditRow :=
    { timestamp := now, action := action, username := username, details := details,
      ip_address := ipAddress, server_id := "management-server" }
  let failed := E.dbFails db.statements.length
  let db := db.receive (.insertAudit row)
  if failed then db else { db with audit_log := db.audit_log ++ [row] }

end Api

namespace Api

open Http Sql

/-- HandleRegister handles user registration: the reply and the handler state
after the call.  The clock is read as `now 0` and `now 1` for the inserted row,
`now 2`, `now 3`, `now 4` by GenerateJWT, `now 5` by logAuditEvent and `now 6`
for the response. -/
def HandleRegister {σ : Type} (E : Env) (svc : OTPService σ) (h : AuthHandler σ)
    (r : Request RegisterRequest) : Reply × AuthHandler σ :=
  if r.Method ≠ "POST" then
    (.sent (sendError "Method not allowed" none StatusMethodNotAllowed), h)
  else
    match r.Body with
    | none => (.sent (sendError "Invalid JSON request" none StatusBadRequest), h)
    | some req =>
      match validatePhoneNumber req.PhoneNumber with
      | some err => (.sent (sendError "Invalid phone number: " (some err) StatusBadRequest), h)
      | none =>
        match validatePassword req.Password with
        | some err => (.sent (sendError "Invalid password: " (some err) StatusBadRequest), h)
        | none =>
          -- Verify OTP
          match svc.VerifyOTP h.otp req.PhoneNumber req.OTP with
          | (.panic, otp) => (.panic, { h with otp := otp })
          | (.fatal, otp) => (.fatal, { h with otp := otp })
          | (.error err, otp) =>
            (.sent (sendError "OTP verification failed: " (some err) StatusBadRequest),
              { h with otp := otp })
          | (.ok false, otp) =>
            (.sent (sendError "Invalid OTP" none StatusUnauthorized), { h with otp := otp })
          | (.ok true, otp) =>
            -- Check if user already exists
            let failed := E.dbFails h.db.statements.length
            let db := h.db.receive (.selectID req.PhoneNumber)
            if failed then
              (.sent (sendError "Internal server error" none StatusInternalServerError),
                { db := db, otp := otp })
            else
              match db.findUser req.PhoneNumber with
              | some _ =>
                (.sent (sendError "User with this phone number already exists" none
                  StatusConflict), { db := db, otp := otp })
              | none =>
                -- Hash password using bcrypt with 12 rounds
                match E.B.GenerateFromPassword req.Password 12 E.salt with
                | none =>
                  (.sent (sendError "Internal server error" none StatusInternalServerError),
                    { db := db, otp := otp })
                | some hashedPassword =>
                  -- Insert new user
                  let failed := E.dbFails db.statements.length
                  let db := db.receive
                    (.insertUser req.PhoneNumber hashedPassword (E.now 0) (E.now 1) true)
                  if failed then
                    (.sent (sendError "Failed to create user" none StatusInternalServerError),
                      { db := db, otp := otp })
                  else
                    let userID := E.newID
                    let db := { db with auth_users := db.auth_users ++
                      [{ id := userID, phone_number := req.PhoneNumber,
                         password_hash := hashedPassword, created_at := E.now 0,
                         last_login := E.now 1, active := true }] }
                    -- Generate JWT token
                    match Shared.GenerateJWT E.P E.JWT_SECRET (E.now 2) (E.now 3) (E.now 4)
                        req.PhoneNumber userID with
                    | .panic => (.panic, { db := db, otp := otp })
                    | .fatal => (.fatal, { db := db, otp := otp })
                    | .error _ =>
                      (.sent (sendError "Failed to generate authentication token" none
                        StatusInternalServerError), { db := db, otp := otp })
                    | .ok token =>
                      let db := logAuditEvent E db (E.now 5) "USER_REGISTERED" req.PhoneNumber
                        "User registered successfully" r.RemoteAddr
                      (.sent
                        { StatusCode := StatusCreated
                          Header := [("Content-Type", "application/json")]
                          Body := .json
                            { Success := true
                              Message := "User registered successfully"
                              MessageError := none
                              Token := some token
                              Data := [("created_at", .num (GoTime.Unix (E.now 6))),
                                ("phone_number", .str req.PhoneNumber),
                                ("user_id", .num userID)] } },
                        { db := db, otp := otp })

/-- HandleLogin handles user login: the reply and the handler state after the
call.  On the paths that end in LOGIN_FAILED the clock is read as `now 0` by
logAuditEvent; on the other path it is read as `now 0` for the update of the last
login, `now 1`, `now 2`, `now 3` by GenerateJWT, `now 4` by logAuditEvent and
`now 5` for the response. -/
def HandleLogin {σ : Type} (E : Env) (h : AuthHandler σ) (r : Request LoginRequest) :
    Reply × AuthHandler σ :=
  if r.Method ≠ "POST" then
    (.sent (sendError "Method not allowed" none StatusMethodNotAllowed), h)
  else
    match r.Body with
    | none => (.sent (sendError "Invalid JSON request" none StatusBadRequest), h)
    | some req =>
      if req.PhoneNumber = "" ∨ req.Password = "" then
        (.sent (sendError "Phone number and password are required" none StatusBadRequest), h)
      else
        -- Retrieve user from database
        let failed := E.dbFails h.db.statements.length
        let db := h.db.receive (.selectLogin req.PhoneNumber)
        if failed then
          (.sent (sendError "Internal server error" none StatusInternalServerError),
            { h with db := db })
        else
          match db.findUser req.PhoneNumber with
          | none =>
            (.sent (sendError "Invalid phone number or password" none StatusUnauthorized),
              { h with
                  db := logAuditEvent E db (E.now 0) "LOGIN_FAILED" req.PhoneNumber
                    "Invalid credentials" r.RemoteAddr })
          | some user =>
            -- Check if account is active
            if !user.active then
              (.sent (sendError "Account is disabled" none StatusForbidden),
                { h with
                  db := logAuditEvent E db (E.now 0) "LOGIN_FAILED" req.PhoneNumber
                    "Account disabled" r.RemoteAddr })
            -- Verify password
            else if !E.B.CompareHashAndPassword user.password_hash req.Password then
              (.sent (sendError "Invalid phone number or password" none StatusUnauthorized),
                { h with
                  db := logAuditEvent E db (E.now 0) "LOGIN_FAILED" req.PhoneNumber
                    "Invalid password" r.RemoteAddr })
            else
              -- Update last login time
              let failed := E.dbFails db.statements.length
              let db := db.receive (.updateLastLogin (E.now 0) user.id)
              let db :=
                if failed then db
                else { db with auth_users := db.auth_users.map (fun u =>
                  if u.id = user.id then { u with last_login := E.now 0 } else u) }
              -- Generate JWT token
              match Shared.GenerateJWT E.P E.JWT_SECRET (E.now 1) (E.now 2) (E.now 3)
                  req.PhoneNumber user.id with
              | .panic => (.panic, { h with db := db })
              | .fatal => (.fatal, { h with db := db })
              | .error _ =>
                (.sent (sendError "Failed to generate authentication token" none
                  StatusInternalServerError), { h with db := db })
              | .ok token =>
                let db := logAuditEvent E db (E.now 4) "LOGIN_SUCCESS" req.PhoneNumber
                  "User logged in successfully" r.RemoteAddr
                (.sent
                  { StatusCode := StatusOK
                    Header := [("Content-Type", "application/json")]
                    Body := .json
                      { Success := true
                        Message := "Login successful"
                        MessageError := none
                        Token := some token
                        Data := [("login_time", .num (GoTime.Unix (E.now 5))),
                          ("phone_number", .str req.PhoneNumber),
                          ("user_id", .num user.id)] } },
                  { h with db := db })

/-- HandleSendOTP handles OTP generation and sending: the reply and the handler
state after the call.  The clock is read as `now 0` by logAuditEvent. -/
def HandleSendOTP {σ : Type} (E : Env) (svc : OTPService σ) (h : AuthHandler σ)
    (r : Request SendOTPRequest) : Reply × AuthHandler σ :=
  if r.Method ≠ "POST" then
    (.sent (sendError "Method not allowed" none StatusMethodNotAllowed), h)
  else
    match r.Body with
    | none => (.sent (sendError "Invalid JSON request" none StatusBadRequest), h)
    | some req =>
      match validatePhoneNumber req.PhoneNumber with
      | some err => (.sent (sendError "Invalid phone number: " (some err) StatusBadRequest), h)
      | none =>
        -- Send OTP
        match svc.SendOTP h.otp req.PhoneNumber with
        | (.panic, otp) => (.panic, { h with otp := otp })
        | (.fatal, otp) => (.fatal, { h with otp := otp })
        | (.error _, otp) =>
          (.sent (sendError "Failed to send OTP" none StatusInternalServerError),
            { h with otp := otp })
        | (.ok _, otp) =>
          let db := logAuditEvent E h.db (E.now 0) "OTP_SENT" req.PhoneNumber
            "OTP sent to phone number" r.RemoteAddr
          (.sent
            { StatusCode := StatusOK
              Header := [("Content-Type", "application/json")]
              Body := .json
                { Success := true
                  Message := "OTP sent successfully to your phone"
                  MessageError := none
                  Token := none
                  Data := [("expires_in", .num 300), ("phone_number", .str req.PhoneNumber)] } },
            { db := db, otp := otp })

/-- JWTAuthMiddleware validates JWT token for protected routes.  The clock is
read as `now 0` and `now 1` by ValidateJWT. -/
def JWTAuthMiddleware {β : Type} (E : Env) (r : Request β) : Reply :=
  if r.Authorization = [.raw ""] then
    .sent (sendError "Authorization header required" none StatusUnauthorized)
  else
    match r.Authorization with
    | [bearer, token] =>
      if bearer ≠ .raw "Bearer" then
        .sent (sendError "Invalid authorization header format" none StatusUnauthorized)
      else
        match Shared.ValidateJWT E.P E.JWT_SECRET (E.now 0) (E.now 1) token with
        | .panic => .panic
        | .fatal => .fatal
        | .error err => .sent (sendError "Invalid token: " (some err) StatusUnauthorized)
        | .ok claims =>
          .next { claims := claims, phone_number := claims.PhoneNumber, user_id := claims.UserID }
    | _ => .sent (sendError "Invalid authorization header format" none StatusUnauthorized)

end Api

/-! ## Package `api`: `api.go` -/

namespace Fmt

/-- The verb `%d` on an integer. -/
def Sprintd (n : Int) : String :=
  if n < 0 then "-" ++ decimal n.natAbs else decimal n.toNat

end Fmt

namespace Api

open Http

/-- Modelled from the spec: the type `shared.Server` of an end-node, declared
outside the given sources, with the fields that the handlers read and the spec
lists (name, host, port, declared status). -/
structure Server where
  Name : String
  Host : String
  Port : Int
  Status : String
  deriving DecidableEq

/-- Modelled from the spec: the type `shared.User` of a user-on-node binding,
declared outside the given sources, with the fields that the handlers read and
the spec lists (username, end-node identifier, port, protocol). -/
structure User where
  Username : String
  ServerID : String
  Port : Int
  Protocol : String
  deriving DecidableEq

/-- What the manager, a package outside the given sources, returns to the
handler: the results of `ListEndNodes()` and `ListUsers()`, `none` for a non-nil
error. -/
structure Manager where
  ListEndNodes : Option (List Server)
  ListUsers : Option (List User)

/-- What `httpClient.Do` returns for a request. -/
inductive DoResult
  /-- A non-nil error: the request did not get a response. -/
  | transportError
  /-- A response with its status code and the body that `io.ReadAll` reads,
  `none` when reading fails. -/
  | response (StatusCode : Int) (body : Option (List UInt8))

/-- The network as `net/http` presents it: whether `http.NewRequest` accepts a
URL, and what the client gets for a GET of a URL. -/
structure Upstream where
  NewRequest : String → Bool
  Do : String → DoResult

/-- The URL that downloadOVPNFromEndNode builds with
`fmt.Sprintf("http://%s:%d/api/ovpn/%s", ...)`. -/
def ovpnURL (endNode : Server) (username : String) : String :=
  "http://" ++ endNode.Host ++ ":" ++ Fmt.Sprintd endNode.Port ++ "/api/ovpn/" ++ username

/-- The function downloadOVPNFromEndNode downloads OVPN file from a specific
end-node: the result and the URLs of the requests sent. -/
def downloadOVPNFromEndNode (U : Upstream) (endNode : Server) (username : String) :
    Outcome (List UInt8) × List String :=
  let url := ovpnURL endNode username
  if !U.NewRequest url then (.error .failedToCreateRequest, [])
  else
    match U.Do url with
    | .transportError => (.error .failedToDownload, [url])
    | .response statusCode body =>
      if statusCode ≠ 200 then (.error (.downloadStatus statusCode), [url])
      else
        match body with
        | none => (.error .failedToRead, [url])
        | some body => (.ok body, [url])

/-- The function handleDownloadOVPN handles OVPN file download requests: the
reply and the URLs of the requests sent to end-nodes. -/
def handleDownloadOVPN {β : Type} (M : Manager) (U : Upstream) (r : Request β) :
    Reply × List String :=
  if r.Method ≠ "GET" then
    (.sent (Http.Error "Method not allowed" none StatusMethodNotAllowed), [])
  else
    match Strings.Split (Strings.TrimPrefix r.Path "/api/ovpn/") '/' with
    | username :: serverID :: _ =>
      -- Get the end-node information
      match M.ListEndNodes with
      | none =>
        (.sent (Http.Error "Failed to retrieve end-nodes" none StatusInternalServerError), [])
      | some endNodes =>
        match endNodes.find? (fun endNode => decide (endNode.Name = serverID)) with
        | none =>
          (.sent (Http.Error ("End-node '" ++ serverID ++ "' not found") none StatusNotFound), [])
        | some targetEndNode =>
          -- Check if user exists on the target end-node
          match M.ListUsers with
          | none =>
            (.sent (Http.Error "Failed to retrieve users" none StatusInternalServerError), [])
          | some users =>
            match users.find? (fun user =>
                decide (user.Username = username) && decide (user.ServerID = serverID)) with
            | none =>
              (.sent (Http.Error
                ("User '" ++ username ++ "' not found on end-node '" ++ serverID ++ "'") none
                StatusNotFound), [])
            | some _ =>
              -- Download OVPN file from the end-node
              match downloadOVPNFromEndNode U targetEndNode username with
              | (.panic, sent) => (.panic, sent)
              | (.fatal, sent) => (.fatal, sent)
              | (.error err, sent) =>
                (.sent (Http.Error "Failed to download OVPN file: " (some err)
                  StatusInternalServerError), sent)
              | (.ok ovpnContent, sent) =>
                let filename := username ++ "_" ++ serverID ++ ".ovpn"
                (.sent
                  { StatusCode := StatusOK
                    Header :=
                      [("Content-Type", "application/x-openvpn-profile"),
                       ("Content-Disposition", "attachment; filename=\"" ++ filename ++ "\""),
                       ("Content-Length", Fmt.decimal ovpnContent.length)]
                    Body := .bytes ovpnContent }, sent)
    | _ =>
      (.sent (Http.Error
        "Username and server ID required in format: /api/ovpn/\x7busername\x7d/\x7bserverID\x7d" none
        StatusBadRequest), [])

end Api

/-! ## Package `shared`: `jwt.go`, continued -/

namespace Shared

open Jwt

/-- IsTokenExpired checks if a token is expired without validating the
signature, at the clock reading `now`; a nil `claims.ExpiresAt` makes the call of
`Before` panic. -/
def IsTokenExpired (now : Time) (tokenString : TokenString) : Outcome Bool :=
  match ParseUnverified tokenString with
  | .error _ => .ok true
  | .ok (token, _) =>
    match token.Claims.ExpiresAt with
    | none => .panic
    | some exp => .ok (GoTime.Before exp now)

end Shared

/-! ## Package `api`: `auth.go`, continued -/

namespace Api

open Http Sql

end Api

/-! ## Package `api`: `stats.go` -/

namespace Api

open Http

/-- The function validateJWTToken validates the JWT token and returns the phone
number (username).  The clock is read as `now 0` and `now 1` by ValidateJWT. -/
def validateJWTToken {β : Type} (E : Env) (r : Request β) : Outcome String :=
  if r.Authorization = [.raw ""] then .error .missingAuthorizationHeader
  else
    match r.Authorization with
    | [bearer, token] =>
      if bearer ≠ .raw "Bearer" then .error .invalidAuthorizationHeaderFormat
      else
        match Shared.ValidateJWT E.P E.JWT_SECRET (E.now 0) (E.now 1) token with
        | .panic => .panic
        | .fatal => .fatal
        | .error err => .error (.invalidToken err)
        | .ok claims =>
          if claims.PhoneNumber = "" then .error .tokenMissingPhoneNumber
          else .ok claims.PhoneNumber
    | _ => .error .invalidAuthorizationHeaderFormat

/-- The function isAdmin checks if a user has admin privileges. -/
def isAdmin (username : String) : Bool :=
  ["admin", "root", "administrator"].any (fun admin => decide (username = admin))

/-- Modelled from the spec: the type `shared.APIResponse`, declared outside the
given sources, with the fields that the handlers fill (success, message, data,
timestamp); an absent `Data` is `none`. -/
structure APIResponse (δ : Type) where
  Success : Bool
  Message : String
  Data : Option δ
  Timestamp : Int
  deriving DecidableEq

/-- How a handler of the management API ends. -/
inductive ApiReply (δ : Type)
  /-- The handler wrote this response with `http.Error` and returned. -/
  | error (r : Response)
  /-- The handler wrote this JSON document, with status 200, and returned. -/
  | json (a : APIResponse δ)
  /-- The handler panicked; no response is written. -/
  | panic
  /-- The process ended through `log.Fatal`. -/
  | fatal
  deriving DecidableEq

/-- What a handler of the management API does besides its reply. -/
inductive Effect
  /-- The function getUserStatistics queried the statistics of the user. -/
  | statsRead (username : String)
  /-- The function getConnectionHistory queried the connections of the user. -/
  | historyRead (username : String)
  /-- The call `manager.CreateUser(...)`. -/
  | createUser (username ovpnPath checksum targetServerID : String) (port : Int)
      (protocol : String)
  /-- The call `manager.RemoveEndNode(serverID)`. -/
  | removeEndNode (serverID : String)
  /-- The call `logAudit(action, username, details, ipAddress)`. -/
  | audit (action username details ipAddress : String)
  deriving DecidableEq

/-- What the statistics queries of `stats.go` get from the database: the
results of getUserStatistics and getConnectionHistory for a user, `none` for a
non-nil error. -/
structure StatsStore (σ κ : Type) where
  getUserStatistics : String → Option σ
  getConnectionHistory : String → Option κ

/-- The function handleGetUserStats handles retrieving user statistics: the
reply and what the handler did.  The clock is read as `now 0` and `now 1` by
validateJWTToken and as `now 2` for the response. -/
def handleGetUserStats {σ κ β : Type} (E : Env) (S : StatsStore σ κ) (r : Request β) :
    ApiReply (σ × κ) × List Effect :=
  if r.Method ≠ "GET" then
    (.error (Http.Error "Method not allowed" none StatusMethodNotAllowed), [])
  else
    -- Validate JWT token
    match validateJWTToken E r with
    | .panic => (.panic, [])
    | .fatal => (.fatal, [])
    | .error _ => (.error (Http.Error "Unauthorized" none StatusUnauthorized), [])
    | .ok authenticatedUser =>
      -- Extract username from URL path
      let username := Strings.TrimPrefix r.Path "/vpn/stats/"
      if username = "" then
        (.error (Http.Error "Username required" none StatusBadRequest), [])
      -- Users can only access their own stats unless they're admin
      else if username ≠ authenticatedUser ∧ !isAdmin authenticatedUser then
        (.error (Http.Error "Forbidden - you can only access your own statistics" none
          StatusForbidden), [])
      else
        -- Get user statistics from database
        match S.getUserStatistics username with
        | none =>
          (.error (Http.Error "Failed to retrieve statistics: "
            (some (.external "database")) StatusInternalServerError), [.statsRead username])
        | some stats =>
          -- Get connection history
          match S.getConnectionHistory username with
          | none =>
            (.error (Http.Error "Failed to retrieve connection history: "
              (some (.external "database")) StatusInternalServerError),
              [.statsRead username, .historyRead username])
          | some connections =>
            (.json
              { Success := true
                Message := "Statistics retrieved successfully"
                Data := some (stats, connections)
                Timestamp := GoTime.Unix (E.now 2) },
              [.statsRead username, .historyRead username,
               .audit "VPN_STATS_ACCESSED" authenticatedUser
                 ("Statistics accessed for user " ++ username) r.RemoteAddr])

end Api

/-! ## Package `api`: `api.go`, continued -/

namespace Strings

/-- Function `strings.HasSuffix`. -/
def HasSuffix (s tail : String) : Bool := tail.data.isSuffixOf s.data

/-- Function `strings.TrimSuffix`. -/
def TrimSuffix (s tail : String) : String :=
  if HasSuffix s tail then String.mk (s.data.take (s.data.length - tail.data.length)) else s

/-- Function `strings.EqualFold`, with the case folding of ASCII letters. -/
def EqualFold (s t : String) : Bool :=
  decide (s.data.map Char.toLower = t.data.map Char.toLower)

/-- The slice expression `s[len(lead):]`, `none` when it panics because `s` is
shorter than `lead`; the characters of `lead` are one byte each. -/
def sliceFrom (s lead : String) : Option String :=
  if s.utf8ByteSize < lead.utf8ByteSize then none
  else some (String.mk (s.data.drop lead.data.length))

end Strings

namespace Api

open Http

/-- The calls of the manager, a package outside the given sources, that change
its store: what `CreateUser(...)` and `RemoveEndNode(...)` return, `none` for a
nil error. -/
structure ManagerCalls where
  CreateUser : String → String → String → String → Int → String → Option Error
  RemoveEndNode : String → Option Error

/-- The body of a create-user request. -/
structure CreateUserRequest where
  Username : String
  OvpnPath : String
  Checksum : String
  Port : Int
  Protocol : String
  TargetServerID : String
  deriving DecidableEq

/-- The regular expression `^[a-zA-Z0-9_]+$`. -/
def matchesUsernamePattern (s : String) : Bool :=
  !s.data.isEmpty && s.data.all (fun c =>
    decide (('a' ≤ c ∧ c ≤ 'z') ∨ ('A' ≤ c ∧ c ≤ 'Z') ∨ ('0' ≤ c ∧ c ≤ '9') ∨ c = '_'))

/-- The function validateUsername validates username for security. -/
def validateUsername (username : String) : Option Error :=
  if username.utf8ByteSize < 3 ∨ username.utf8ByteSize > 32 then some .usernameLength
  else if !matchesUsernamePattern username then some .usernameCharacters
  else if ["admin", "root", "system", "vpnmanager", "postgres", "nobody"].any
      (fun reserved => Strings.EqualFold username reserved) then
    some (.usernameReserved username)
  else none

/-- The function validateUserInput validates user input for security. -/
def validateUserInput (username : String) (port : Int) (protocol : String) : Option Error :=
  match validateUsername username with
  | some err => some err
  | none =>
    if port < 1 ∨ port > 65535 then some .portRange
    else if protocol ≠ "udp" ∧ protocol ≠ "tcp" then some .protocolInvalid
    else none

/-- The function handleCreateUser handles user creation: the reply and what the
handler did.  The clock is read as `now 0` for the response. -/
def handleCreateUser (C : ManagerCalls) (now : Nat → Time) (r : Request CreateUserRequest) :
    ApiReply Unit × List Effect :=
  match r.Body with
  | none => (.error (Http.Error "Invalid JSON" none StatusBadRequest), [])
  | some req =>
    -- Validate and sanitize input
    match validateUserInput req.Username req.Port req.Protocol with
    | some err => (.error (Http.Error "Invalid input: " (some err) StatusBadRequest), [])
    | none =>
      -- Set defaults
      let req := if req.Port = 0 then { req with Port := 1194 } else req
      let req := if req.Protocol = "" then { req with Protocol := "udp" } else req
      let call := Effect.createUser req.Username req.OvpnPath req.Checksum req.TargetServerID
        req.Port req.Protocol
      match C.CreateUser req.Username req.OvpnPath req.Checksum req.TargetServerID req.Port
          req.Protocol with
      | some err =>
        (.error (Http.Error "Failed to create user: " (some err) StatusInternalServerError),
          [call])
      | none =>
        (.json
          { Success := true
            Message := "User created successfully"
            Data := none
            Timestamp := GoTime.Unix (now 0) },
          [call,
           .audit "user_created" req.Username
             ("User created with port " ++ Fmt.Sprintd req.Port ++ ", protocol " ++ req.Protocol)
             r.RemoteAddr])

/-- The function handleGetEndNode handles getting end-node information.  The
clock is read as `now 0`. -/
def handleGetEndNode (now : Nat → Time) (_serverID : String) : ApiReply Unit × List Effect :=
  (.json
    { Success := true
      Message := "End-node information retrieved successfully"
      Data := none
      Timestamp := GoTime.Unix (now 0) }, [])

/-- The function handleEndNodeHealth handles end-node health updates. -/
def handleEndNodeHealth (now : Nat → Time) (_serverID : String) : ApiReply Unit × List Effect :=
  (.json
    { Success := true
      Message := "Health status updated successfully"
      Data := none
      Timestamp := GoTime.Unix (now 0) }, [])

/-- The function handleEndNodeDeregister handles end-node deregistration. -/
def handleEndNodeDeregister {β : Type} (C : ManagerCalls) (now : Nat → Time) (r : Request β)
    (serverID : String) : ApiReply Unit × List Effect :=
  if r.Method ≠ "POST" ∧ r.Method ≠ "DELETE" then
    (.error (Http.Error "Method not allowed" none StatusMethodNotAllowed), [])
  else
    -- Remove the end-node from the database
    match C.RemoveEndNode serverID with
    | some err =>
      (.error (Http.Error "Failed to remove end-node: " (some err) StatusInternalServerError),
        [.removeEndNode serverID])
    | none =>
      (.json
        { Success := true
          Message := "End-node '" ++ serverID ++ "' deregistered successfully"
          Data := none
          Timestamp := GoTime.Unix (now 0) }, [.removeEndNode serverID])

/-- The function handleEndNodeOperations handles end-node operations. -/
def handleEndNodeOperations {β : Type} (C : ManagerCalls) (now : Nat → Time) (r : Request β) :
    ApiReply Unit × List Effect :=
  -- Extract server ID from URL path
  match Strings.sliceFrom r.Path "/api/endnodes/" with
  | none => (.panic, [])
  | some serverID =>
    if serverID = "" then (.error (Http.Error "Server ID required" none StatusBadRequest), [])
    else
      -- Remove any trailing path segments
      let serverID :=
        if serverID.data.getLast? = some '/' then String.mk serverID.data.dropLast
        else serverID
      -- Check for specific operations
      if Strings.HasSuffix r.Path "/deregister" then
        handleEndNodeDeregister C now r (Strings.TrimSuffix serverID "/deregister")
      else if Strings.HasSuffix r.Path "/health" then
        handleEndNodeHealth now (Strings.TrimSuffix serverID "/health")
      -- Handle basic end-node operations
      else if r.Method = "GET" then handleGetEndNode now serverID
      else if r.Method = "DELETE" then handleEndNodeDeregister C now r serverID
      else (.error (Http.Error "Method not allowed" none StatusMethodNotAllowed), [])

end Api

namespace Http

/-- Whether the reply is a JSON response with `success` true. -/
def Reply.success : Reply → Bool
  | .sent r =>
    match r.Body with
    | .json a => a.Success
    | _ => false
  | _ => false

end Http

/-! ## Package `bcrypt`: the length of the password -/

/-- The password as the key schedule of bcrypt reads it: at most its first 72
bytes; the characters of the password are taken to be one byte each. -/
def Bcrypt.first72 (password : String) : String :=
  String.mk (password.data.take 72)

/-- The functions of the bcrypt package around a hash `B` of the bytes that the
key schedule reads.  For a password of more than 72 bytes GenerateFromPassword
returns `ErrPasswordTooLong` in the releases with `rejectsLong`, and hashes the
first 72 bytes in the earlier ones; CompareHashAndPassword hashes the first 72
bytes in both. -/
def Bcrypt.withLimit (rejectsLong : Bool) (B : Bcrypt) : Bcrypt :=
  { GenerateFromPassword := fun password cost salt =>
      if password.utf8ByteSize > 72 then
        if rejectsLong then none
        else B.GenerateFromPassword (Bcrypt.first72 password) cost salt
      else B.GenerateFromPassword password cost salt
    CompareHashAndPassword := fun hash password =>
      B.CompareHashAndPassword hash (Bcrypt.first72 password) }

namespace Api

end Api

namespace Http

/-- The token in the JSON response of a reply, if there is one. -/
def Reply.token : Reply → Option Jwt.TokenString
  | .sent r =>
    match r.Body with
    | .json a => a.Token
    | _ => none
  | _ => none

/-- The status code of a reply, if a response was written. -/
def Reply.status : Reply → Option Nat
  | .sent r => some r.StatusCode
  | _ => none

end Http

/-! ## Package `api`: `locations.go` -/

namespace Sql

/-- Modelled from the spec: a row of the table `servers`, which is created
outside the given sources, with the columns that the query of
getServersForLocation names and the stored password of the node that the spec
speaks of; `none` is the SQL null of a nullable column. -/
structure ServerRow where
  id : Int
  name : String
  host : String
  port : Int
  username : Option String
  password : Option String
  enabled : Bool
  last_sync : Option Time
  server_type : String
  management_url : Option String
  created_at : Time
  location_id : Int
  deriving DecidableEq

/-- A row of the table `server_health`, with the columns that getServerHealth
reads. -/
structure HealthRow where
  id : Int
  server_id : String
  status : String
  last_check : Time
  response_time_ms : Int
  error_message : Option String
  deriving DecidableEq

/-- A row of the table `users`, with the columns that getServerUserCount
reads. -/
structure UserRow where
  username : String
  server_id : String
  active : Bool
  deriving DecidableEq

/-- The tables that `locations.go` reads. -/
structure Fleet where
  servers : List ServerRow
  server_health : List HealthRow
  users : List UserRow
  deriving DecidableEq

/-- What the database adds to the content of its tables: the order of the
names under the collation of `ORDER BY`, and the errors that the driver returns,
`none` for nil: by `conn.Query`, by `rows.Scan` on the `n`-th row, by
`rows.Err()`, and by the two `QueryRow(...).Scan` calls for a server. -/
structure Driver where
  nameLE : String → String → Bool
  queryErr : Option Error
  scanErr : Nat → Option Error
  rowsErr : Option Error
  healthErr : String → Option Error
  countErr : String → Option Error

/-- The row with the latest `last_check`, which `ORDER BY last_check DESC LIMIT 1`
returns; among rows with the same instant the first of the table is taken. -/
def latestHealth : List HealthRow → Option HealthRow
  | [] => none
  | r :: rest =>
    match latestHealth rest with
    | none => some r
    | some r' => if r'.last_check > r.last_check then some r' else some r

/-- The rows that the query of getServersForLocation returns: the enabled
servers of the location, ordered by name; rows with names that the collation
does not tell apart stay in the order of the table. -/
def Fleet.serversOf (D : Driver) (servers : List ServerRow) (locationID : Int) :
    List ServerRow :=
  (servers.filter (fun s => decide (s.location_id = locationID) && s.enabled)).insertionSort
    (fun a b => D.nameLE a.name b.name = true)

end Sql

/-- The zero value of `time.Time`, 1 January of year 1. -/
def GoTime.zeroTime : Time := -62135596800000000000

/-- The operations on `float64` that `locations.go` uses, over a type `φ` of
the floating-point numbers: the conversion of an int, division, multiplication
and the comparison `>`. -/
structure Float64 (φ : Type) where
  ofInt : Int → φ
  div : φ → φ → φ
  mul : φ → φ → φ
  gt : φ → φ → Bool

namespace Api

open Sql

/-- Modelled from the spec: the type `shared.ServerHealth`, declared outside the
given sources, with the fields that getServerHealth and getServersForLocation
fill. -/
structure ServerHealth where
  ID : Int
  ServerID : String
  Status : String
  LastCheck : Time
  ResponseTime : Int
  ErrorMessage : String
  deriving DecidableEq

/-- Modelled from the spec: the type `shared.ServerWithHealth`, declared outside
the given sources, with the fields that getServersForLocation fills and the
credential field `Password` of a server record, whose assignment the function
has removed. -/
structure ServerWithHealth (φ : Type) where
  ID : Int
  Name : String
  Host : String
  Port : Int
  Username : String
  Password : String
  Enabled : Bool
  LastSync : Time
  ServerType : String
  ManagementURL : String
  CreatedAt : Time
  Health : ServerHealth
  UserCount : Int
  LoadPercent : φ
  deriving DecidableEq

/-- The method getServerHealth retrieves health status for a server. -/
def getServerHealth (D : Driver) (T : Fleet) (serverID : String) : Outcome ServerHealth :=
  match D.healthErr serverID with
  | some err => .error err
  | none =>
    match latestHealth (T.server_health.filter (fun r => decide (r.server_id = serverID))) with
    | none => .error (.external "sql: no rows in result set")
    | some row =>
      .ok
        { ID := row.id
          ServerID := row.server_id
          Status := row.status
          LastCheck := row.last_check
          ResponseTime := row.response_time_ms
          ErrorMessage :=
            match row.error_message with
            | some s => s
            | none => "" }

/-- The method getServerUserCount returns the number of active users on a
server. -/
def getServerUserCount (D : Driver) (T : Fleet) (serverID : String) : Outcome Int :=
  match D.countErr serverID with
  | some err => .error err
  | none =>
    .ok ((T.users.filter (fun u => decide (u.server_id = serverID) && u.active)).length : Int)

/-- The body of the loop of getServersForLocation for the row `row`, scanned
without an error; the clock is read as `now` for the default health. -/
def scanServer {φ : Type} (D : Driver) (A : Float64 φ) (now : Time) (T : Fleet)
    (row : ServerRow) : ServerWithHealth φ :=
  -- Get health status for this server
  let health : ServerHealth :=
    match getServerHealth D T row.name with
    | .ok health => health
    | _ =>
      -- Default health if not available
      { ID := 0
        ServerID := row.name
        Status := "unknown"
        LastCheck := now
        ResponseTime := 0
        ErrorMessage := "No health data available" }
  -- Get user count for this server
  let load : Int × φ :=
    match getServerUserCount D T row.name with
    | .ok userCount =>
      -- Calculate load percentage (assume max 50 users per server)
      let loadPercent := A.mul (A.div (A.ofInt userCount) (A.ofInt 50)) (A.ofInt 100)
      (userCount, if A.gt loadPercent (A.ofInt 100) then A.ofInt 100 else loadPercent)
    | _ => (0, A.ofInt 0)
  { ID := row.id
    Name := row.name
    Host := row.host
    Port := row.port
    Username :=
      match row.username with
      | some s => s
      | none => ""
    Password := ""
    Enabled := row.enabled
    LastSync :=
      match row.last_sync with
      | some t => t
      | none => GoTime.zeroTime
    ServerType := row.server_type
    ManagementURL :=
      match row.management_url with
      | some s => s
      | none => ""
    CreatedAt := row.created_at
    Health := health
    UserCount := load.1
    LoadPercent := load.2 }

/-- The loop `for rows.Next()` of getServersForLocation over the rows that are
left, `i` rows being read and `servers` collected so far, and the return after
it; the clock is read as `now i` in the body for the `i`-th row. -/
def scanServers {φ : Type} (D : Driver) (A : Float64 φ) (now : Nat → Time) (T : Fleet) :
    List ServerRow → Nat → List (ServerWithHealth φ) → List (ServerWithHealth φ) × Option Error
  | [], _, servers => (servers, D.rowsErr)
  | row :: rest, i, servers =>
    match D.scanErr i with
    | some err => ([], some err)
    | none => scanServers D A now T rest (i + 1) (servers ++ [scanServer D A (now i) T row])

/-- The method getServersForLocation retrieves all servers for a specific
location with health status: the slice and the error that it returns, the nil
slice being the empty list. -/
def getServersForLocation {φ : Type} (D : Driver) (A : Float64 φ) (now : Nat → Time)
    (T : Fleet) (locationID : Int) : List (ServerWithHealth φ) × Option Error :=
  match D.queryErr with
  | some err => ([], some err)
  | none => scanServers D A now T (Fleet.serversOf D T.servers locationID) 0 []

end Api

namespace Sql

/-- The row with its password column cleared. -/
def ServerRow.withoutPassword (r : ServerRow) : ServerRow :=
  { r with password := none }

/-- The tables with the password column of `servers` cleared: two states of the
database differ only in that column when they agree after this. -/
def Fleet.withoutPasswords (T : Fleet) : Fleet :=
  { T with servers := T.servers.map ServerRow.withoutPassword }

end Sql

/-! ## Package `crypto/hmac` -/

namespace Hmac

/-- The bytes of a Go string: the UTF-8 encoding of its characters. -/
def bytes (s : String) : List Nat :=
  s.data.flatMap (fun c => (String.utf8EncodeChar c).map UInt8.toNat)

end Hmac

namespace Jwt

end Jwt

/-! ## Concrete inputs -/

/-- A token that declares HS384 and carries the MAC of its text under
`demoSecret` for that method. -/
def hs384Token : Jwt.Segments :=
  { alg := "HS384"
    claims := Shared.issuedClaims 0 0 0 "+19995550100" 7
    signingString := "HS384.+19995550100"
    signature := some (demoPrimitives.hmac .SHA384 demoSecret "HS384.+19995550100") }

/-- A token with an empty identity that carries the MAC of its text under
`demoSecret`; it expires one hour after the epoch. -/
def emptyIdentityToken : Jwt.Segments :=
  { alg := "HS256"
    claims :=
      { PhoneNumber := ""
        UserID := 7
        ExpiresAt := some 3600000000000
        IssuedAt := some 0
        NotBefore := some 0
        Issuer := "chameleonvpn-auth"
        Subject := ""
        Audience := []
        ID := "" }
    signingString := "HS256."
    signature := some (demoPrimitives.hmac .SHA256 demoSecret "HS256.") }

/-- A store with one code on file. -/
def demoOTPService : Api.MockOTPService :=
  { otpStore := fun k => if k = "+19995550100" then some "654321" else none }

/-- A store with no code on file. -/
def emptyOTPService : Api.MockOTPService :=
  { otpStore := fun _ => none }

/-- A bcrypt stand-in that keeps salt and password readable, to evaluate the
model on concrete inputs. -/
def demoBcrypt : Bcrypt :=
  { GenerateFromPassword := fun password _ salt => some ("$2a$12$" ++ salt ++ "$" ++ password)
    CompareHashAndPassword := fun hash password =>
      decide (hash = "$2a$12$" ++ "salt" ++ "$" ++ password) }

/-- An environment with `demoSecret`, a clock that stands at the epoch and a
database that meets no driver error. -/
def demoEnv : Api.Env :=
  { P := demoPrimitives
    B := demoBcrypt
    JWT_SECRET := demoSecret
    now := fun _ => 0
    dbFails := fun _ => false
    newID := 2
    salt := "salt" }

/-- The environment `demoEnv` with the clock standing at `t`. -/
def demoEnvAt (t : Time) : Api.Env :=
  { demoEnv with now := fun _ => t }

/-- An active account with the password `Abcd1234`. -/
def demoActiveUser : Sql.AuthUser :=
  { id := 1, phone_number := "+19995550100", password_hash := "$2a$12$salt$Abcd1234",
    created_at := 0, last_login := 0, active := true }

/-- A disabled account with the password `Abcd1234`. -/
def demoDisabledUser : Sql.AuthUser :=
  { id := 3, phone_number := "+19995550103", password_hash := "$2a$12$salt$Abcd1234",
    created_at := 0, last_login := 0, active := false }

/-- A database with one active and one disabled account. -/
def demoDB : Sql.DB :=
  { auth_users := [demoActiveUser, demoDisabledUser]
    audit_log := []
    statements := [] }

/-- A handler over `demoDB` and the store with one code on file. -/
def demoHandler : Api.AuthHandler Api.MockOTPService :=
  { db := demoDB, otp := demoOTPService }

/-- A POST request with the given body. -/
def postRequest {β : Type} (body : β) : Http.Request β :=
  { Method := "POST", Path := "", Authorization := [.raw ""], Body := some body,
    RemoteAddr := "203.0.113.7:4711" }

/-- A token without an expires-at claim that carries the MAC of its text under
`demoSecret`. -/
def noExpiryToken : Jwt.Segments :=
  { alg := "HS256"
    claims :=
      { PhoneNumber := "+19995550100"
        UserID := 1
        ExpiresAt := none
        IssuedAt := some 0
        NotBefore := some 0
        Issuer := "chameleonvpn-auth"
        Subject := "+19995550100"
        Audience := []
        ID := "" }
    signingString := "HS256.+19995550100"
    signature := some (demoPrimitives.hmac .SHA256 demoSecret "HS256.+19995550100") }

/-- A GET request with the given pieces of the Authorization header. -/
def bearerRequest (authorization : List Jwt.TokenString) : Http.Request Unit :=
  { Method := "GET", Path := "/vpn/status", Authorization := authorization, Body := none,
    RemoteAddr := "203.0.113.7:4711" }

/-- An end-node. -/
def demoNode : Api.Server :=
  { Name := "node-eu-1", Host := "10.0.0.5", Port := 8080, Status := "active" }

/-- The binding of bob on `demoNode`. -/
def demoUser : Api.User :=
  { Username := "bob", ServerID := "node-eu-1", Port := 1194, Protocol := "udp" }

/-- A manager that knows `demoNode` and the binding of bob on it. -/
def demoManager : Api.Manager :=
  { ListEndNodes := some [demoNode], ListUsers := some [demoUser] }

/-- A network in which every request is accepted and gets the given result. -/
def demoUpstream (result : Api.DoResult) : Api.Upstream :=
  { NewRequest := fun _ => true, Do := fun _ => result }

/-- A GET request for the given path. -/
def getRequest (path : String) : Http.Request Unit :=
  { Method := "GET", Path := path, Authorization := [.raw ""], Body := none,
    RemoteAddr := "203.0.113.7:4711" }

/-- A token for the identity `+19995550100` issued at the epoch under
`demoSecret`, and the request that presents it for the given path. -/
def statsRequest (path : String) : Http.Request Unit :=
  { Method := "GET", Path := path,
    Authorization :=
      [.raw "Bearer", Shared.issuedToken demoPrimitives demoSecret 0 0 0 "+19995550100" 1],
    Body := none, RemoteAddr := "203.0.113.7:4711" }

/-- A statistics store that answers every query with the name it was asked. -/
def demoStats : Api.StatsStore String String :=
  { getUserStatistics := fun u => some u, getConnectionHistory := fun u => some u }

/-- A manager whose calls return a nil error. -/
def demoCalls : Api.ManagerCalls :=
  { CreateUser := fun _ _ _ _ _ _ => none, RemoveEndNode := fun _ => none }

/-- A create-user request for alice with the given port and protocol. -/
def createRequest (port : Int) (protocol : String) : Http.Request Api.CreateUserRequest :=
  postRequest
    { Username := "alice", OvpnPath := "/etc/openvpn/alice.ovpn", Checksum := "c0ffee",
      Port := port, Protocol := protocol, TargetServerID := "node-eu-1" }

/-- A database without accounts. -/
def emptyDB : Sql.DB :=
  { auth_users := [], audit_log := [], statements := [] }

/-- A handler without accounts and with the code 654321 on file for
`+19995550100`. -/
def freshHandler : Api.AuthHandler Api.MockOTPService :=
  { db := emptyDB, otp := demoOTPService }

/-- The registration request of the scenario: phone `+19995550100`, password
`Abcd1234`, OTP `654321`. -/
def scenarioRegister : Http.Request Api.RegisterRequest :=
  postRequest { PhoneNumber := "+19995550100", Password := "Abcd1234", OTP := "654321" }

/-- The login request of the scenario. -/
def scenarioLogin : Http.Request Api.LoginRequest :=
  postRequest { PhoneNumber := "+19995550100", Password := "Abcd1234" }

/-- A password of 80 bytes that validatePassword accepts. -/
def longPassword : String := "Abcd1234" ++ String.mk (List.replicate 72 'x')

/-- A password of 80 bytes that differs from `longPassword` in its last byte. -/
def longPassword2 : String := "Abcd1234" ++ String.mk (List.replicate 71 'x') ++ "y"

/-- The environment `demoEnv` over the bcrypt package with its limit of 72
bytes, around the readable hash. -/
def limitEnv (rejectsLong : Bool) : Api.Env :=
  { demoEnv with B := Bcrypt.withLimit rejectsLong demoBcrypt }

/-- The scenario registration with the password `longPassword`. -/
def longRegister : Http.Request Api.RegisterRequest :=
  postRequest { PhoneNumber := "+19995550100", Password := longPassword, OTP := "654321" }

/-- A login with the password `longPassword2`. -/
def longLogin2 : Http.Request Api.LoginRequest :=
  postRequest { PhoneNumber := "+19995550100", Password := longPassword2 }

/-- The scenario registration on a handler without accounts, with the clock
standing at `t`: its reply and the handler afterwards. -/
def registeredAt (t : Time) : Http.Reply × Api.AuthHandler Api.MockOTPService :=
  Api.HandleRegister (demoEnvAt t) (Api.MockOTPService.service 0) freshHandler scenarioRegister

/-- A driver without errors that orders the names by their characters. -/
def demoDriver : Sql.Driver :=
  { nameLE := fun a b => decide (a.data ≤ b.data)
    queryErr := none
    scanErr := fun _ => none
    rowsErr := none
    healthErr := fun _ => none
    countErr := fun _ => none }

/-- A stand-in for `float64` that computes in thousandths, to evaluate the
model on concrete inputs. -/
def demoFloat64 : Float64 Int :=
  { ofInt := fun n => n * 1000
    div := fun a b => a * 1000 / b
    mul := fun a b => a * b / 1000
    gt := fun a b => decide (a > b) }

/-- Two enabled servers of location 1, given out of the order of their names,
with the stored passwords `password1` and `password2`. -/
def fleetServers (password1 password2 : String) : List Sql.ServerRow :=
  [{ id := 2, name := "node-b", host := "198.51.100.2", port := 22, username := some "root",
     password := some password2, enabled := true, last_sync := none, server_type := "endnode",
     management_url := none, created_at := 0, location_id := 1 },
   { id := 1, name := "node-a", host := "198.51.100.1", port := 22, username := some "root",
     password := some password1, enabled := true, last_sync := some 5000000000,
     server_type := "endnode", management_url := some "https://node-a.example:8443",
     created_at := 0, location_id := 1 }]

/-- The tables with `fleetServers`, one health row and one active user for
`node-a`. -/
def demoFleet (password1 password2 : String) : Sql.Fleet :=
  { servers := fleetServers password1 password2
    server_health :=
      [{ id := 1, server_id := "node-a", status := "healthy", last_check := 4000000000,
         response_time_ms := 12, error_message := none }]
    users := [{ username := "alice", server_id := "node-a", active := true }] }

namespace GoTime

theorem Truncate_second (t : Time) : Truncate t Second = t - t % 1000000000 := by
  unfold Truncate Second unixToInternal
  have h : ¬ ((1000000000 : Int) ≤ 0) := by decide
  rw [if_neg h]
  unfold Time at *
  omega

theorem Sub_gt_hour (t u : Time) : Sub t u > 1 * Hour ↔ t - u > 3600000000000 := by
  unfold Sub Hour Second maxDuration minDuration
  unfold Time Duration at *
  split_ifs <;> omega

end GoTime

namespace Jwt

theorem NewNumericDate_eq (t : Time) : NewNumericDate t = t - t % 1000000000 := by
  unfold NewNumericDate TimePrecision
  exact GoTime.Truncate_second t

theorem NewNumericDate_le (t : Time) : NewNumericDate t ≤ t := by
  rw [NewNumericDate_eq]; unfold Time at *; omega

theorem lt_NewNumericDate_add (t : Time) : t < NewNumericDate t + GoTime.Second := by
  rw [NewNumericDate_eq]; unfold GoTime.Second; unfold Time Duration at *; omega

theorem NewNumericDate_add_day (t : Time) :
    NewNumericDate (GoTime.Add t (24 * GoTime.Hour)) = NewNumericDate t + 24 * GoTime.Hour := by
  rw [NewNumericDate_eq, NewNumericDate_eq]
  unfold GoTime.Add GoTime.Hour GoTime.Second
  unfold Time Duration at *
  omega

end Jwt

namespace Shared

open Jwt

theorem GetJWTSecret_of_long (secret : String) (h : 32 ≤ secret.utf8ByteSize) :
    GetJWTSecret secret = .ok secret := by
  unfold GetJWTSecret
  have hne : secret ≠ "" := by
    rintro rfl
    revert h
    decide
  rw [if_neg hne, if_neg (by omega)]

theorem GetJWTSecret_of_short (secret : String) (h : secret.utf8ByteSize < 32) :
    GetJWTSecret secret = .fatal := by
  unfold GetJWTSecret
  split_ifs <;> rfl

theorem GenerateJWT_of_valid (P : Primitives) (env : String) (tExp tIat tNbf : Time)
    (phoneNumber : String) (userID : Int) (hphone : phoneNumber ≠ "")
    (hsecret : 32 ≤ env.utf8ByteSize) :
    GenerateJWT P env tExp tIat tNbf phoneNumber userID
      = .ok (issuedToken P env tExp tIat tNbf phoneNumber userID) := by
  unfold GenerateJWT
  rw [if_neg hphone, GetJWTSecret_of_long env hsecret]
  rfl

/-- What ValidateJWT returns on a token of three segments under a secret of at
least 32 bytes, step by step. -/
theorem ValidateJWT_compact (P : Primitives) (env : String) (tLib tChk : Time) (p : Segments)
    (hsecret : 32 ≤ env.utf8ByteSize) :
    ValidateJWT P env tLib tChk (.compact p) =
      match GetSigningMethod p.alg with
      | none => .error (.failedToParse .algUnavailable)
      | some m =>
        match p.signature with
        | none => .error (.failedToParse .malformed)
        | some signature =>
          match m with
          | .HMAC h =>
            if P.hmac h env p.signingString = signature then
              match Validate tLib p.claims with
              | .error e => .error (.failedToParse e)
              | .ok _ =>
                match p.claims.ExpiresAt with
                | none => .panic
                | some exp => if exp < tChk then .error .tokenExpired else .ok p.claims
            else .error (.failedToParse .signatureInvalid)
          | _ => .error (.failedToParse (.keyFuncFailed p.alg)) := by
  unfold ValidateJWT
  rw [if_neg (by simp), GetJWTSecret_of_long env hsecret]
  obtain ⟨alg, claims, text, sig⟩ := p
  simp only [ParseWithClaims, ParseUnverified]
  cases hm : GetSigningMethod alg with
  | none => rfl
  | some m =>
    cases sig with
    | none => rfl
    | some signature =>
      cases m with
      | HMAC h =>
        simp only [keyFunc, Verify]
        by_cases hsig : P.hmac h env text = signature
        · simp only [hsig, decide_True, Bool.not_true, Bool.false_eq_true, if_false, if_true]
          cases hv : Validate tLib claims with
          | error e => rfl
          | ok u =>
            simp only [Bool.not_true, Bool.false_eq_true, if_false]
            cases hx : claims.ExpiresAt with
            | none => rfl
            | some exp => simp [GoTime.Before]
        · simp [hsig]
      | _ => rfl

end Shared

namespace Shared

open Jwt

theorem GenerateJWT_eq_ok (P : Primitives) (env : String) (tExp tIat tNbf : Time)
    (phoneNumber : String) (userID : Int) (tok : TokenString)
    (h : GenerateJWT P env tExp tIat tNbf phoneNumber userID = .ok tok) :
    phoneNumber ≠ "" ∧ 32 ≤ env.utf8ByteSize ∧
      tok = issuedToken P env tExp tIat tNbf phoneNumber userID := by
  by_cases hphone : phoneNumber = ""
  · unfold GenerateJWT at h
    rw [if_pos hphone] at h
    cases h
  · by_cases hsecret : 32 ≤ env.utf8ByteSize
    · rw [GenerateJWT_of_valid P env tExp tIat tNbf phoneNumber userID hphone hsecret] at h
      cases h
      exact ⟨hphone, hsecret, rfl⟩
    · unfold GenerateJWT at h
      rw [if_neg hphone, GetJWTSecret_of_short env (by omega)] at h
      cases h

theorem ValidateJWT_of_short (P : Primitives) (env : String) (tLib tChk : Time)
    (tokenString : TokenString) (h : env.utf8ByteSize < 32) :
    ValidateJWT P env tLib tChk tokenString
      = if tokenString = .raw "" then .error .tokenEmpty else .fatal := by
  unfold ValidateJWT
  rw [GetJWTSecret_of_short env h]

theorem ValidateJWT_raw (P : Primitives) (env : String) (tLib tChk : Time) (s : String)
    (claims : Claims) : ValidateJWT P env tLib tChk (.raw s) ≠ .ok claims := by
  unfold ValidateJWT
  by_cases hs : TokenString.raw s = .raw ""
  · rw [if_pos hs]; simp
  · rw [if_neg hs]
    cases hg : GetJWTSecret env <;> simp [ParseWithClaims, ParseUnverified]

theorem ValidateJWT_eq_ok (P : Primitives) (env : String) (tLib tChk : Time)
    (tokenString : TokenString) (claims : Claims)
    (h : ValidateJWT P env tLib tChk tokenString = .ok claims) :
    32 ≤ env.utf8ByteSize ∧ ∃ p, tokenString = .compact p ∧ p.claims = claims := by
  have hsecret : 32 ≤ env.utf8ByteSize := by
    by_contra hc
    rw [ValidateJWT_of_short P env tLib tChk tokenString (by omega)] at h
    split_ifs at h
  refine ⟨hsecret, ?_⟩
  cases tokenString with
  | raw s => exact absurd h (ValidateJWT_raw P env tLib tChk s claims)
  | compact p =>
    refine ⟨p, rfl, ?_⟩
    rw [ValidateJWT_compact P env tLib tChk p hsecret] at h
    cases hm : GetSigningMethod p.alg with
    | none => rw [hm] at h; cases h
    | some m =>
      rw [hm] at h
      cases hs : p.signature with
      | none => rw [hs] at h; cases h
      | some signature =>
        rw [hs] at h
        cases m with
        | HMAC hh =>
          simp only at h
          split_ifs at h with hsig
          cases hv : Validate tLib p.claims with
          | error e => rw [hv] at h; cases h
          | ok u =>
            rw [hv] at h
            cases hx : p.claims.ExpiresAt with
            | none => rw [hx] at h; cases h
            | some exp =>
              rw [hx] at h
              simp only at h
              split_ifs at h
              cases h
              rfl
        | _ => cases h

/-- ValidateJWT on a token issued under the same secret, parsed at `tLib` and
checked at `tChk`, both before its expires-at and not before its not-before. -/
theorem ValidateJWT_issuedToken (P : Primitives) (env : String)
    (tExp tIat tNbf tLib tChk : Time) (phoneNumber : String) (userID : Int)
    (hsecret : 32 ≤ env.utf8ByteSize) (hnbf : tNbf ≤ tLib)
    (hlib : tLib < NewNumericDate (GoTime.Add tExp (24 * GoTime.Hour)))
    (hchk : tChk ≤ NewNumericDate (GoTime.Add tExp (24 * GoTime.Hour))) :
    ValidateJWT P env tLib tChk (issuedToken P env tExp tIat tNbf phoneNumber userID)
      = .ok (issuedClaims tExp tIat tNbf phoneNumber userID) := by
  have h1 := NewNumericDate_le tNbf
  unfold issuedToken
  rw [ValidateJWT_compact P env tLib tChk _ hsecret]
  unfold issuedSegments
  have hnb : ¬ tLib < NewNumericDate tNbf := not_lt.mpr (le_trans h1 hnbf)
  have hch : ¬ NewNumericDate (GoTime.Add tExp (24 * GoTime.Hour)) < tChk := not_lt.mpr hchk
  simp [GetSigningMethod, Validate, issuedClaims, GoTime.Before, hlib, hnb, hch]

end Shared

/-! ## Claims on the token service -/

namespace Shared

open Jwt

theorem GetSigningMethod_HMAC (alg : String) (h : CryptoHash)
    (hm : GetSigningMethod alg = some (.HMAC h)) :
    alg = "HS256" ∨ alg = "HS384" ∨ alg = "HS512" := by
  by_cases h1 : alg = "HS256"
  · exact Or.inl h1
  by_cases h2 : alg = "HS384"
  · exact Or.inr (Or.inl h2)
  by_cases h3 : alg = "HS512"
  · exact Or.inr (Or.inr h3)
  exfalso
  unfold GetSigningMethod at hm
  rw [if_neg h1, if_neg h2, if_neg h3] at hm
  by_cases k0 : alg = "RS256"
  · rw [if_pos k0] at hm; cases hm
  rw [if_neg k0] at hm
  by_cases k1 : alg = "RS384"
  · rw [if_pos k1] at hm; cases hm
  rw [if_neg k1] at hm
  by_cases k2 : alg = "RS512"
  · rw [if_pos k2] at hm; cases hm
  rw [if_neg k2] at hm
  by_cases k3 : alg = "PS256"
  · rw [if_pos k3] at hm; cases hm
  rw [if_neg k3] at hm
  by_cases k4 : alg = "PS384"
  · rw [if_pos k4] at hm; cases hm
  rw [if_neg k4] at hm
  by_cases k5 : alg = "PS512"
  · rw [if_pos k5] at hm; cases hm
  rw [if_neg k5] at hm
  by_cases k6 : alg = "ES256"
  · rw [if_pos k6] at hm; cases hm
  rw [if_neg k6] at hm
  by_cases k7 : alg = "ES384"
  · rw [if_pos k7] at hm; cases hm
  rw [if_neg k7] at hm
  by_cases k8 : alg = "ES512"
  · rw [if_pos k8] at hm; cases hm
  rw [if_neg k8] at hm
  by_cases k9 : alg = "EdDSA"
  · rw [if_pos k9] at hm; cases hm
  rw [if_neg k9] at hm
  by_cases k10 : alg = "none"
  · rw [if_pos k10] at hm; cases hm
  rw [if_neg k10] at hm
  cases hm

/-- C1: for a non-empty identity and a secret of at least 32 bytes, GenerateJWT
returns a token, and ValidateJWT on that token, called before the token's
expires-at with a clock that has not gone back behind the issuer's reads,
returns claims with the PhoneNumber and UserID given to GenerateJWT and with
issued-at ≤ now ≤ expires-at, for both clock reads of the validation. -/
theorem validate_generate_roundtrip (P : Primitives) (env : String)
    (tExp tIat tNbf tLib tChk : Time) (phoneNumber : String) (userID : Int)
    (hphone : phoneNumber ≠ "") (hsecret : 32 ≤ env.utf8ByteSize)
    (hiat : tIat ≤ tLib) (hnbf : tNbf ≤ tLib) (hlib : tLib ≤ tChk)
    (hfresh : tChk < NewNumericDate (GoTime.Add tExp (24 * GoTime.Hour))) :
    ∃ tok claims iat exp,
      GenerateJWT P env tExp tIat tNbf phoneNumber userID = .ok tok ∧
      ValidateJWT P env tLib tChk tok = .ok claims ∧
      claims.PhoneNumber = phoneNumber ∧ claims.UserID = userID ∧
      claims.IssuedAt = some iat ∧ claims.ExpiresAt = some exp ∧
      iat ≤ tLib ∧ tLib ≤ tChk ∧ tChk ≤ exp := by
  refine ⟨issuedToken P env tExp tIat tNbf phoneNumber userID,
    issuedClaims tExp tIat tNbf phoneNumber userID, NewNumericDate tIat,
    NewNumericDate (GoTime.Add tExp (24 * GoTime.Hour)),
    GenerateJWT_of_valid P env tExp tIat tNbf phoneNumber userID hphone hsecret,
    ?_, rfl, rfl, rfl, rfl, ?_, hlib, ?_⟩
  · exact ValidateJWT_issuedToken P env tExp tIat tNbf tLib tChk phoneNumber userID hsecret hnbf
      (lt_of_le_of_lt hlib hfresh) (le_of_lt hfresh)
  · exact le_trans (NewNumericDate_le tIat) hiat
  · exact le_of_lt hfresh

/-- Witness of C1: issue and validation at one instant. -/
theorem validate_generate_roundtrip_witness :
    ∃ tok claims iat exp,
      GenerateJWT demoPrimitives demoSecret 1500000000 1500000000 1500000000 "+19995550100" 7
        = .ok tok ∧
      ValidateJWT demoPrimitives demoSecret 1500000000 1500000000 tok = .ok claims ∧
      claims.PhoneNumber = "+19995550100" ∧ claims.UserID = 7 ∧
      claims.IssuedAt = some iat ∧ claims.ExpiresAt = some exp ∧
      iat ≤ 1500000000 ∧ (1500000000 : Time) ≤ 1500000000 ∧ 1500000000 ≤ exp :=
  validate_generate_roundtrip demoPrimitives demoSecret 1500000000 1500000000 1500000000
    1500000000 1500000000 "+19995550100" 7 (by decide) (by decide) (by decide) (by decide)
    (by decide) (by decide)

/-- C2: under a secret of at least 32 bytes, ValidateJWT returns an error for
every token whose expires-at is at or before the time at which the token is
parsed, whatever its algorithm, signature and other claims. -/
theorem validate_rejects_expired (P : Primitives) (env : String) (tLib tChk : Time)
    (p : Segments) (exp : Time) (hsecret : 32 ≤ env.utf8ByteSize)
    (hexp : p.claims.ExpiresAt = some exp) (hnow : exp ≤ tLib) :
    ∃ e, ValidateJWT P env tLib tChk (.compact p) = .error e := by
  rw [ValidateJWT_compact P env tLib tChk p hsecret]
  have hnot : ¬ tLib < exp := not_lt.mpr hnow
  cases hm : GetSigningMethod p.alg with
  | none => exact ⟨_, rfl⟩
  | some m =>
    cases hs : p.signature with
    | none => exact ⟨_, rfl⟩
    | some signature =>
      cases m with
      | HMAC h =>
        by_cases hsig : P.hmac h env p.signingString = signature
        · simp only [hsig, if_true]
          have hv : Validate tLib p.claims
              = .error (.invalidClaims true
                  (match p.claims.NotBefore with
                    | none => false
                    | some nbf => GoTime.Before tLib nbf)) := by
            simp [Validate, hexp, GoTime.Before, hnot]
          rw [hv]
          exact ⟨_, rfl⟩
        · simp only [hsig, if_false]
          exact ⟨_, rfl⟩
      | _ => exact ⟨_, rfl⟩

/-- Witness of C2: a token issued at the epoch and validated exactly 24 hours
later, at its expires-at. -/
theorem validate_rejects_expired_witness :
    ∃ e, ValidateJWT demoPrimitives demoSecret 86400000000000 86400000000000
      (.compact (issuedSegments demoPrimitives demoSecret 0 0 0 "+19995550100" 7)) = .error e :=
  validate_rejects_expired demoPrimitives demoSecret 86400000000000 86400000000000
    (issuedSegments demoPrimitives demoSecret 0 0 0 "+19995550100" 7) 86400000000000
    (by decide) (by decide) (by decide)

end Shared

namespace Shared

open Jwt

/-- C4, as the code stands: a token that declares HS384 and carries the MAC
for that method under the server secret is accepted by ValidateJWT. -/
theorem validate_accepts_hs384 :
    hs384Token.alg ≠ "HS256" ∧
      ValidateJWT demoPrimitives demoSecret 0 0 (.compact hs384Token)
        = .ok hs384Token.claims := by
  decide

/-- C4, amended: ValidateJWT accepts no token whose declared algorithm is
outside HS256, HS384 and HS512, whatever its signature and claims; under a
secret of at least 32 bytes it returns an error for it. -/
theorem validate_rejects_non_hmac (P : Primitives) (env : String) (tLib tChk : Time)
    (p : Segments) (h256 : p.alg ≠ "HS256") (h384 : p.alg ≠ "HS384")
    (h512 : p.alg ≠ "HS512") :
    (ValidateJWT P env tLib tChk (.compact p)).isOk = false ∧
      (32 ≤ env.utf8ByteSize → ∃ e, ValidateJWT P env tLib tChk (.compact p) = .error e) := by
  have herr : 32 ≤ env.utf8ByteSize →
      ∃ e, ValidateJWT P env tLib tChk (.compact p) = .error e := by
    intro hsecret
    rw [ValidateJWT_compact P env tLib tChk p hsecret]
    cases hm : GetSigningMethod p.alg with
    | none => exact ⟨_, rfl⟩
    | some m =>
      cases hs : p.signature with
      | none => exact ⟨_, rfl⟩
      | some signature =>
        cases m with
        | HMAC h =>
          rcases GetSigningMethod_HMAC p.alg h hm with h1 | h1 | h1
          · exact absurd h1 h256
          · exact absurd h1 h384
          · exact absurd h1 h512
        | _ => exact ⟨_, rfl⟩
  refine ⟨?_, herr⟩
  by_cases hsecret : 32 ≤ env.utf8ByteSize
  · obtain ⟨e, he⟩ := herr hsecret
    rw [he]
    rfl
  · rw [ValidateJWT_of_short P env tLib tChk _ (by omega)]
    rfl

/-- Witness of C4, amended: a token that declares the `none` method. -/
theorem validate_rejects_non_hmac_witness :
    (ValidateJWT demoPrimitives demoSecret 0 0
        (.compact { hs384Token with alg := "none" })).isOk = false ∧
      (32 ≤ demoSecret.utf8ByteSize →
        ∃ e, ValidateJWT demoPrimitives demoSecret 0 0
          (.compact { hs384Token with alg := "none" }) = .error e) :=
  validate_rejects_non_hmac demoPrimitives demoSecret 0 0 { hs384Token with alg := "none" }
    (by decide) (by decide) (by decide)

/-- C5: for every token that ValidateJWT accepts and whose expires-at is more
than one hour after the clock reading of `time.Until`, RefreshJWT returns the
error "token is not close to expiration yet" and no token. -/
theorem refresh_too_early (P : Primitives) (env : String)
    (tLib tChk tUntil tExp tIat tNbf : Time) (tokenString : TokenString) (claims : Claims)
    (exp : Time) (hvalid : ValidateJWT P env tLib tChk tokenString = .ok claims)
    (hexp : claims.ExpiresAt = some exp) (hrem : exp - tUntil > 1 * GoTime.Hour) :
    RefreshJWT P env tLib tChk tUntil tExp tIat tNbf tokenString
      = .error (.notCloseToExpiration (GoTime.Until exp tUntil)) := by
  have hgt : GoTime.Until exp tUntil > 1 * GoTime.Hour := by
    unfold GoTime.Until
    rw [GoTime.Sub_gt_hour]
    unfold GoTime.Hour GoTime.Second at hrem
    unfold Time at *
    omega
  unfold RefreshJWT
  rw [hvalid]
  simp only [hexp]
  rw [if_pos hgt]

/-- Witness of C5: a token refreshed at the instant of its issue. -/
theorem refresh_too_early_witness :
    RefreshJWT demoPrimitives demoSecret 0 0 0 0 0 0
      (issuedToken demoPrimitives demoSecret 0 0 0 "+19995550100" 7)
      = .error (.notCloseToExpiration (GoTime.Until 86400000000000 0)) :=
  refresh_too_early demoPrimitives demoSecret 0 0 0 0 0 0 _
    (issuedClaims 0 0 0 "+19995550100" 7) 86400000000000 (by decide) (by decide) (by decide)

end Shared

namespace Shared

open Jwt

/-- C6, as the code stands: a token with an empty identity that ValidateJWT
accepts, with one hour left, is not refreshed: RefreshJWT returns the error of
GenerateJWT on the empty phone number. -/
theorem refresh_fails_empty_identity :
    ValidateJWT demoPrimitives demoSecret 0 0 (.compact emptyIdentityToken)
        = .ok emptyIdentityToken.claims ∧
      emptyIdentityToken.claims.ExpiresAt = some 3600000000000 ∧
      (3600000000000 : Time) - 0 ≤ 1 * GoTime.Hour ∧
      RefreshJWT demoPrimitives demoSecret 0 0 0 0 0 0 (.compact emptyIdentityToken)
        = .error (.failedToGenerate .phoneNumberEmpty) := by
  decide

/-- C6, amended: for every token that ValidateJWT accepts, whose PhoneNumber is
not empty and whose expires-at is at most one hour after the clock reading of
`time.Until`, RefreshJWT returns a token, provided the clock does not go back
before the new token is issued.  ValidateJWT on the new token, called before
the new expires-at, returns claims with the same PhoneNumber and UserID and an
expires-at strictly later than that of the original. -/
theorem refresh_near_expiry (P : Primitives) (env : String)
    (tLib tChk tUntil tExp tIat tNbf tLib2 tChk2 : Time) (tokenString : TokenString)
    (claims : Claims) (exp : Time)
    (hvalid : ValidateJWT P env tLib tChk tokenString = .ok claims)
    (hexp : claims.ExpiresAt = some exp) (hphone : claims.PhoneNumber ≠ "")
    (hrem : exp - tUntil ≤ 1 * GoTime.Hour) (hclock : tUntil ≤ tExp)
    (hnbf2 : tNbf ≤ tLib2) (hlib2 : tLib2 ≤ tChk2)
    (hfresh2 : tChk2 < NewNumericDate (GoTime.Add tExp (24 * GoTime.Hour))) :
    ∃ newToken newClaims newExp,
      RefreshJWT P env tLib tChk tUntil tExp tIat tNbf tokenString = .ok newToken ∧
      ValidateJWT P env tLib2 tChk2 newToken = .ok newClaims ∧
      newClaims.PhoneNumber = claims.PhoneNumber ∧ newClaims.UserID = claims.UserID ∧
      newClaims.ExpiresAt = some newExp ∧ exp < newExp := by
  obtain ⟨hsecret, _⟩ := ValidateJWT_eq_ok P env tLib tChk tokenString claims hvalid
  have hle : ¬ GoTime.Until exp tUntil > 1 * GoTime.Hour := by
    unfold GoTime.Until
    rw [GoTime.Sub_gt_hour]
    unfold GoTime.Hour GoTime.Second at hrem
    unfold Time at *
    omega
  refine ⟨issuedToken P env tExp tIat tNbf claims.PhoneNumber claims.UserID,
    issuedClaims tExp tIat tNbf claims.PhoneNumber claims.UserID,
    NewNumericDate (GoTime.Add tExp (24 * GoTime.Hour)), ?_, ?_, rfl, rfl, rfl, ?_⟩
  · unfold RefreshJWT
    rw [hvalid]
    simp only [hexp]
    rw [if_neg hle,
      GenerateJWT_of_valid P env tExp tIat tNbf claims.PhoneNumber claims.UserID hphone hsecret]
  · exact ValidateJWT_issuedToken P env tExp tIat tNbf tLib2 tChk2 _ _ hsecret hnbf2
      (lt_of_le_of_lt hlib2 hfresh2) (le_of_lt hfresh2)
  · rw [NewNumericDate_add_day]
    have h1 := lt_NewNumericDate_add tExp
    unfold GoTime.Hour GoTime.Second at *
    unfold Time Duration at *
    omega

/-- Witness of C6, amended: a token issued at the epoch and refreshed 23 hours
and 30 minutes later. -/
theorem refresh_near_expiry_witness :
    ∃ newToken newClaims newExp,
      RefreshJWT demoPrimitives demoSecret 84600000000000 84600000000000 84600000000000
        84600000000000 84600000000000 84600000000000
        (issuedToken demoPrimitives demoSecret 0 0 0 "+19995550100" 7) = .ok newToken ∧
      ValidateJWT demoPrimitives demoSecret 84600000000000 84600000000000 newToken
        = .ok newClaims ∧
      newClaims.PhoneNumber = (issuedClaims 0 0 0 "+19995550100" 7).PhoneNumber ∧
      newClaims.UserID = (issuedClaims 0 0 0 "+19995550100" 7).UserID ∧
      newClaims.ExpiresAt = some newExp ∧ 86400000000000 < newExp :=
  refresh_near_expiry demoPrimitives demoSecret 84600000000000 84600000000000 84600000000000
    84600000000000 84600000000000 84600000000000 84600000000000 84600000000000 _
    (issuedClaims 0 0 0 "+19995550100" 7) 86400000000000 (by decide) (by decide) (by decide)
    (by decide) (by decide) (by decide) (by decide) (by decide)

/-- C7: for every account reference, GenerateJWT with an empty identity returns
the error "phone number cannot be empty" and no token, whatever the secret; with
a non-empty identity and a secret of at least 32 bytes it returns a token and a
nil error. -/
theorem generate_empty_identity_or_token (P : Primitives) (env : String)
    (tExp tIat tNbf : Time) (userID : Int) :
    GenerateJWT P env tExp tIat tNbf "" userID = .error .phoneNumberEmpty ∧
      ∀ phoneNumber : String, phoneNumber ≠ "" → 32 ≤ env.utf8ByteSize →
        ∃ p, GenerateJWT P env tExp tIat tNbf phoneNumber userID = .ok (.compact p) := by
  constructor
  · rfl
  · intro phoneNumber hphone hsecret
    exact ⟨_, GenerateJWT_of_valid P env tExp tIat tNbf phoneNumber userID hphone hsecret⟩

/-- Witness of C7. -/
theorem generate_empty_identity_or_token_witness :
    GenerateJWT demoPrimitives demoSecret 0 0 0 "" 7 = .error .phoneNumberEmpty ∧
      ∃ p, GenerateJWT demoPrimitives demoSecret 0 0 0 "+19995550100" 7 = .ok (.compact p) :=
  ⟨(generate_empty_identity_or_token demoPrimitives demoSecret 0 0 0 7).1,
    (generate_empty_identity_or_token demoPrimitives demoSecret 0 0 0 7).2 "+19995550100"
      (by decide) (by decide)⟩

/-- C8: GetJWTSecret returns a value only when the configured secret has at
least 32 bytes, and then returns that secret; for an empty or shorter secret it
ends the process.  With such a secret GenerateJWT signs nothing and ValidateJWT
verifies nothing: each either returns its error on an empty argument, before
the secret is read, or ends the process. -/
theorem secret_min_length (secret : String) :
    (∀ s, GetJWTSecret secret = .ok s → s = secret ∧ 32 ≤ secret.utf8ByteSize) ∧
      (secret.utf8ByteSize < 32 →
        GetJWTSecret secret = .fatal ∧
        (∀ (P : Primitives) (tExp tIat tNbf : Time) (phoneNumber : String) (userID : Int),
          GenerateJWT P secret tExp tIat tNbf phoneNumber userID
            = if phoneNumber = "" then .error .phoneNumberEmpty else .fatal) ∧
        (∀ (P : Primitives) (tLib tChk : Time) (tokenString : TokenString),
          ValidateJWT P secret tLib tChk tokenString
            = if tokenString = .raw "" then .error .tokenEmpty else .fatal)) := by
  constructor
  · intro s hs
    by_cases h : 32 ≤ secret.utf8ByteSize
    · rw [GetJWTSecret_of_long secret h] at hs
      cases hs
      exact ⟨rfl, h⟩
    · rw [GetJWTSecret_of_short secret (by omega)] at hs
      cases hs
  · intro h
    refine ⟨GetJWTSecret_of_short secret h, ?_, ?_⟩
    · intro P tExp tIat tNbf phoneNumber userID
      unfold GenerateJWT
      rw [GetJWTSecret_of_short secret h]
    · intro P tLib tChk tokenString
      exact ValidateJWT_of_short P secret tLib tChk tokenString h

/-- Witness of C8: a secret of 32 bytes is returned, one of 31 bytes is not. -/
theorem secret_min_length_witness :
    (demoSecret = demoSecret ∧ 32 ≤ demoSecret.utf8ByteSize) ∧
      GetJWTSecret "0123456789abcdef0123456789abcde" = .fatal :=
  ⟨(secret_min_length demoSecret).1 demoSecret (by decide),
    ((secret_min_length "0123456789abcdef0123456789abcde").2 (by decide)).1⟩

/-- C9, as the code stands: when the clock passes a second boundary between the
read for the expiration time and the read for issued-at, expires-at is not
issued-at plus 24 hours. -/
theorem generate_expiry_not_issued_plus_day :
    GenerateJWT demoPrimitives demoSecret 999999999 1000000000 1000000000 "+19995550100" 7
        = .ok (issuedToken demoPrimitives demoSecret 999999999 1000000000 1000000000
            "+19995550100" 7) ∧
      (issuedClaims 999999999 1000000000 1000000000 "+19995550100" 7).ExpiresAt
        = some 86400000000000 ∧
      (issuedClaims 999999999 1000000000 1000000000 "+19995550100" 7).IssuedAt
        = some 1000000000 ∧
      (86400000000000 : Time) ≠ 1000000000 + 24 * GoTime.Hour := by
  decide

/-- C9, amended: every token produced by GenerateJWT carries claims in which
the issuer is the fixed service name, the subject and PhoneNumber are the
identity, and expires-at, issued-at and not-before are the three clock reads
cut to whole seconds, the first one moved 24 hours ahead.  When the three reads
fall within one second, expires-at is issued-at plus exactly 24 hours and
not-before is issued-at. -/
theorem generate_claims (P : Primitives) (env : String) (tExp tIat tNbf : Time)
    (phoneNumber : String) (userID : Int) (tok : TokenString)
    (hgen : GenerateJWT P env tExp tIat tNbf phoneNumber userID = .ok tok) :
    ∃ p, tok = .compact p ∧ p.alg = "HS256" ∧
      p.claims.Issuer = "chameleonvpn-auth" ∧ p.claims.Subject = phoneNumber ∧
      p.claims.PhoneNumber = phoneNumber ∧ p.claims.UserID = userID ∧
      p.claims.ExpiresAt = some (NewNumericDate tExp + 24 * GoTime.Hour) ∧
      p.claims.IssuedAt = some (NewNumericDate tIat) ∧
      p.claims.NotBefore = some (NewNumericDate tNbf) ∧
      (NewNumericDate tExp = NewNumericDate tIat → NewNumericDate tIat = NewNumericDate tNbf →
        p.claims.ExpiresAt = some (NewNumericDate tIat + 24 * GoTime.Hour) ∧
        p.claims.NotBefore = p.claims.IssuedAt) := by
  obtain ⟨_, _, htok⟩ := GenerateJWT_eq_ok P env tExp tIat tNbf phoneNumber userID tok hgen
  refine ⟨_, htok, rfl, rfl, rfl, rfl, rfl, ?_, rfl, rfl, ?_⟩
  · show some (NewNumericDate (GoTime.Add tExp (24 * GoTime.Hour))) = _
    rw [NewNumericDate_add_day]
  · intro h1 h2
    constructor
    · show some (NewNumericDate (GoTime.Add tExp (24 * GoTime.Hour))) = _
      rw [NewNumericDate_add_day, h1]
    · show some (NewNumericDate tNbf) = some (NewNumericDate tIat)
      rw [h2]

/-- Witness of C9, amended: the three reads at one instant. -/
theorem generate_claims_witness :
    ∃ p, issuedToken demoPrimitives demoSecret 1500000000 1500000000 1500000000
        "+19995550100" 7 = .compact p ∧ p.alg = "HS256" ∧
      p.claims.Issuer = "chameleonvpn-auth" ∧ p.claims.Subject = "+19995550100" ∧
      p.claims.PhoneNumber = "+19995550100" ∧ p.claims.UserID = 7 ∧
      p.claims.ExpiresAt = some (NewNumericDate 1500000000 + 24 * GoTime.Hour) ∧
      p.claims.IssuedAt = some (NewNumericDate 1500000000) ∧
      p.claims.NotBefore = some (NewNumericDate 1500000000) ∧
      (NewNumericDate 1500000000 = NewNumericDate 1500000000 →
        NewNumericDate 1500000000 = NewNumericDate 1500000000 →
        p.claims.ExpiresAt = some (NewNumericDate 1500000000 + 24 * GoTime.Hour) ∧
        p.claims.NotBefore = p.claims.IssuedAt) :=
  generate_claims demoPrimitives demoSecret 1500000000 1500000000 1500000000 "+19995550100" 7
    _ (by decide)

end Shared

/-! ## Claims on the OTP service -/

namespace Api

/-- C10: VerifyOTP has three outcomes.  With no code on file for the identifier
it returns the error "no OTP found" and leaves the store as it was; with a
stored code other than the given one it returns false with a nil error and
leaves the store as it was; with the stored code equal to the given one it
returns true with a nil error, and afterwards the store has no entry for the
identifier and every other entry as before. -/
theorem verifyOTP_outcomes (m : MockOTPService) (phoneNumber otp : String) :
    (m.otpStore phoneNumber = none →
        m.VerifyOTP phoneNumber otp = (.error .noOTPFound, m)) ∧
      (∀ storedOTP, m.otpStore phoneNumber = some storedOTP → storedOTP ≠ otp →
        m.VerifyOTP phoneNumber otp = (.ok false, m)) ∧
      (m.otpStore phoneNumber = some otp →
        (m.VerifyOTP phoneNumber otp).1 = .ok true ∧
        (m.VerifyOTP phoneNumber otp).2.otpStore phoneNumber = none ∧
        ∀ k, k ≠ phoneNumber →
          (m.VerifyOTP phoneNumber otp).2.otpStore k = m.otpStore k) := by
  refine ⟨?_, ?_, ?_⟩
  · intro h
    unfold MockOTPService.VerifyOTP
    rw [h]
  · intro storedOTP h hne
    unfold MockOTPService.VerifyOTP
    rw [h]
    simp only
    rw [if_pos hne]
  · intro h
    unfold MockOTPService.VerifyOTP
    rw [h]
    simp only [ne_eq, not_true_eq_false, if_false, if_true, true_and]
    intro k hk
    rw [if_neg hk]

/-- Witness of C10: no code on file, a wrong code, the right code. -/
theorem verifyOTP_outcomes_witness :
    demoOTPService.VerifyOTP "+19995550199" "654321" = (.error .noOTPFound, demoOTPService) ∧
      demoOTPService.VerifyOTP "+19995550100" "000000" = (.ok false, demoOTPService) ∧
      ((demoOTPService.VerifyOTP "+19995550100" "654321").1 = .ok true ∧
        (demoOTPService.VerifyOTP "+19995550100" "654321").2.otpStore "+19995550100" = none ∧
        ∀ k, k ≠ "+19995550100" →
          (demoOTPService.VerifyOTP "+19995550100" "654321").2.otpStore k
            = demoOTPService.otpStore k) :=
  ⟨(verifyOTP_outcomes demoOTPService "+19995550199" "654321").1 (by decide),
    (verifyOTP_outcomes demoOTPService "+19995550100" "000000").2.1 "654321" (by decide)
      (by decide),
    (verifyOTP_outcomes demoOTPService "+19995550100" "654321").2.2 (by decide)⟩

end Api

namespace Api

theorem VerifyOTP_store_none (m : MockOTPService) (phoneNumber otp k : String)
    (h : m.otpStore k = none) : (m.VerifyOTP phoneNumber otp).2.otpStore k = none := by
  unfold MockOTPService.VerifyOTP
  cases hs : m.otpStore phoneNumber with
  | none => exact h
  | some storedOTP =>
    by_cases hne : storedOTP ≠ otp
    · show (if storedOTP ≠ otp then ((Outcome.ok false : Outcome Bool), m)
        else (.ok true, _)).2.otpStore k = none
      rw [if_pos hne]
      exact h
    · show (if storedOTP ≠ otp then ((Outcome.ok false : Outcome Bool), m)
        else (.ok true,
          { otpStore := fun k => if k = phoneNumber then none else m.otpStore k })).2.otpStore k
          = none
      rw [if_neg hne]
      by_cases hk : k = phoneNumber
      · show (if k = phoneNumber then none else m.otpStore k) = none
        rw [if_pos hk]
      · show (if k = phoneNumber then none else m.otpStore k) = none
        rw [if_neg hk]; exact h

theorem VerifyOTP_of_none (m : MockOTPService) (phoneNumber otp : String)
    (h : m.otpStore phoneNumber = none) :
    m.VerifyOTP phoneNumber otp = (.error .noOTPFound, m) := by
  unfold MockOTPService.VerifyOTP
  rw [h]

theorem run_store_none (calls : List OTPCall) (m : MockOTPService) (k : String)
    (h : m.otpStore k = none) (hcalls : ∀ c ∈ calls, OTPCall.sendsTo k c = false) :
    (m.run calls).otpStore k = none := by
  induction calls generalizing m with
  | nil => exact h
  | cons c calls ih =>
    have htail : ∀ c' ∈ calls, OTPCall.sendsTo k c' = false :=
      fun c' hc' => hcalls c' (List.mem_cons_of_mem c hc')
    cases c with
    | send now p =>
      have hp : ¬ p = k := by
        have := hcalls (.send now p) (List.mem_cons_self _ _)
        simpa [OTPCall.sendsTo] using this
      refine ih _ ?_ htail
      show (if k = p then some (MockOTPService.GenerateOTP now) else m.otpStore k) = none
      rw [if_neg (fun hk => hp hk.symm)]
      exact h
    | verify p otp =>
      exact ih _ (VerifyOTP_store_none m p otp k h) htail

theorem SendOTP_VerifyOTP (m : MockOTPService) (now : Time) (phoneNumber : String) :
    (m.SendOTP now phoneNumber).1 = .ok (MockOTPService.GenerateOTP now) ∧
      ((m.SendOTP now phoneNumber).2.VerifyOTP phoneNumber (MockOTPService.GenerateOTP now)).1
        = .ok true ∧
      ((m.SendOTP now phoneNumber).2.VerifyOTP phoneNumber
        (MockOTPService.GenerateOTP now)).2.otpStore phoneNumber = none := by
  simp [MockOTPService.SendOTP, MockOTPService.VerifyOTP]

/-- C11: SendOTP for an identifier returns a code with a nil error; the first
VerifyOTP of the identifier with that code returns true; after any further
calls on the service among which there is no SendOTP for the identifier, a
second VerifyOTP of the identifier with the code returns the error "no OTP
found". -/
theorem verifyOTP_once (m : MockOTPService) (now : Time) (phoneNumber : String)
    (calls : List OTPCall) (hcalls : ∀ c ∈ calls, OTPCall.sendsTo phoneNumber c = false) :
    ∃ c m1 m2,
      m.SendOTP now phoneNumber = (.ok c, m1) ∧
      m1.VerifyOTP phoneNumber c = (.ok true, m2) ∧
      ((m2.run calls).VerifyOTP phoneNumber c).1 = .error .noOTPFound := by
  obtain ⟨h1, h2, h3⟩ := SendOTP_VerifyOTP m now phoneNumber
  refine ⟨MockOTPService.GenerateOTP now, (m.SendOTP now phoneNumber).2,
    ((m.SendOTP now phoneNumber).2.VerifyOTP phoneNumber (MockOTPService.GenerateOTP now)).2,
    ?_, ?_, ?_⟩
  · exact Prod.ext h1 rfl
  · exact Prod.ext h2 rfl
  · rw [VerifyOTP_of_none _ _ _ (run_store_none calls _ phoneNumber h3 hcalls)]

end Api

namespace Api

open Http Sql

/-- Witness of C11: between the two verifications a code is sent to another
identifier and the identifier is verified with another code. -/
theorem verifyOTP_once_witness :
    ∃ c m1 m2,
      demoOTPService.SendOTP 1700000123000000000 "+19995550100" = (.ok c, m1) ∧
      m1.VerifyOTP "+19995550100" c = (.ok true, m2) ∧
      ((m2.run [.send 1700000124000000000 "+19995550101",
          .verify "+19995550100" "000000"]).VerifyOTP "+19995550100" c).1
        = .error .noOTPFound :=
  verifyOTP_once demoOTPService 1700000123000000000 "+19995550100"
    [.send 1700000124000000000 "+19995550101", .verify "+19995550100" "000000"]
    (by decide)

/-- C12, as the code stands: a code sent at the epoch is on file without a
time, and VerifyOTP reads no clock; after a call made at the clock reading of
301 seconds, VerifyOTP with that code returns true. -/
theorem verifyOTP_after_window :
    (emptyOTPService.SendOTP 0 "+19995550100").1 = .ok "000000" ∧
      (((emptyOTPService.SendOTP 0 "+19995550100").2.run
          [.send 301000000000 "+19995550101"]).VerifyOTP "+19995550100" "000000").1
        = .ok true := by
  decide

/-- The reply of HandleSendOTP to a POST request with a valid phone number when
the service returns a code. -/
theorem HandleSendOTP_of_sent {σ : Type} (E : Env) (svc : OTPService σ) (h : AuthHandler σ)
    (r : Request SendOTPRequest) (req : SendOTPRequest) (code : String) (s : σ)
    (hmethod : r.Method = "POST") (hbody : r.Body = some req)
    (hphone : validatePhoneNumber req.PhoneNumber = none)
    (hsend : svc.SendOTP h.otp req.PhoneNumber = (.ok code, s)) :
    (HandleSendOTP E svc h r).1 = .sent
      { StatusCode := 200
        Header := [("Content-Type", "application/json")]
        Body := .json
          { Success := true
            Message := "OTP sent successfully to your phone"
            MessageError := none
            Token := none
            Data := [("expires_in", .num 300), ("phone_number", .str req.PhoneNumber)] } } := by
  unfold HandleSendOTP
  rw [if_neg (by rw [hmethod]; simp), hbody]
  simp only [hphone, hsend]
  rfl

/-- C13: for a POST request with a valid phone number, two runs of
HandleSendOTP in which the OTP service returns the codes `code` and `code'`,
whatever the service, the handler state, the clock and the database do, write
the same response: status 200 and the body with success, the fixed message,
`expires_in` 300 and the phone number of the request. -/
theorem sendOTP_response_independent_of_code {σ τ : Type} (E E' : Env) (svc : OTPService σ)
    (svc' : OTPService τ) (h : AuthHandler σ) (h' : AuthHandler τ)
    (r : Request SendOTPRequest) (req : SendOTPRequest) (code code' : String) (s : σ) (s' : τ)
    (hmethod : r.Method = "POST") (hbody : r.Body = some req)
    (hphone : validatePhoneNumber req.PhoneNumber = none)
    (hsend : svc.SendOTP h.otp req.PhoneNumber = (.ok code, s))
    (hsend' : svc'.SendOTP h'.otp req.PhoneNumber = (.ok code', s')) :
    (HandleSendOTP E svc h r).1 = (HandleSendOTP E' svc' h' r).1 ∧
      (HandleSendOTP E svc h r).1 = .sent
        { StatusCode := 200
          Header := [("Content-Type", "application/json")]
          Body := .json
            { Success := true
              Message := "OTP sent successfully to your phone"
              MessageError := none
              Token := none
              Data := [("expires_in", .num 300), ("phone_number", .str req.PhoneNumber)] } } := by
  have h1 := HandleSendOTP_of_sent E svc h r req code s hmethod hbody hphone hsend
  have h2 := HandleSendOTP_of_sent E' svc' h' r req code' s' hmethod hbody hphone hsend'
  exact ⟨h1.trans h2.symm, h1⟩

/-- Witness of C13: the mock service at two clock readings, which give the
codes 000123 and 654321. -/
theorem sendOTP_response_independent_of_code_witness :
    (HandleSendOTP (demoEnvAt 123000000000) (MockOTPService.service 123000000000) demoHandler
        (postRequest { PhoneNumber := "+19995550100" })).1
      = (HandleSendOTP (demoEnvAt 654321000000000) (MockOTPService.service 654321000000000)
          demoHandler (postRequest { PhoneNumber := "+19995550100" })).1 ∧
      (HandleSendOTP (demoEnvAt 123000000000) (MockOTPService.service 123000000000) demoHandler
        (postRequest { PhoneNumber := "+19995550100" })).1 = .sent
        { StatusCode := 200
          Header := [("Content-Type", "application/json")]
          Body := .json
            { Success := true
              Message := "OTP sent successfully to your phone"
              MessageError := none
              Token := none
              Data := [("expires_in", .num 300), ("phone_number", .str "+19995550100")] } } :=
  sendOTP_response_independent_of_code (demoEnvAt 123000000000) (demoEnvAt 654321000000000)
    (MockOTPService.service 123000000000) (MockOTPService.service 654321000000000)
    demoHandler demoHandler (postRequest { PhoneNumber := "+19995550100" })
    { PhoneNumber := "+19995550100" } "000123" "654321"
    (demoOTPService.SendOTP 123000000000 "+19995550100").2
    (demoOTPService.SendOTP 654321000000000 "+19995550100").2
    (by decide) rfl (by decide)
    (Prod.ext (by decide) rfl) (Prod.ext (by decide) rfl)

end Api

namespace Api

theorem validatePassword_eq_none_iff (password : String) :
    validatePassword password = none ↔
      8 ≤ password.utf8ByteSize ∧ password.utf8ByteSize ≤ 128 ∧
      (∃ c ∈ password.data, 'A' ≤ c ∧ c ≤ 'Z') ∧
      (∃ c ∈ password.data, 'a' ≤ c ∧ c ≤ 'z') ∧
      (∃ c ∈ password.data, '0' ≤ c ∧ c ≤ '9') := by
  unfold validatePassword
  by_cases h1 : password.utf8ByteSize < 8
  · rw [if_pos h1]
    constructor
    · intro h; cases h
    · intro h; omega
  rw [if_neg h1]
  by_cases h2 : password.utf8ByteSize > 128
  · rw [if_pos h2]
    constructor
    · intro h; cases h
    · intro h; omega
  rw [if_neg h2]
  by_cases h3 : (password.data.any (fun c => decide ('A' ≤ c ∧ c ≤ 'Z'))) = true
  swap
  · rw [if_pos (by simpa using h3)]
    constructor
    · intro h; cases h
    · intro h
      exact absurd (by simpa using h.2.2.1) h3
  rw [if_neg (by simpa using h3)]
  by_cases h4 : (password.data.any (fun c => decide ('a' ≤ c ∧ c ≤ 'z'))) = true
  swap
  · rw [if_pos (by simpa using h4)]
    constructor
    · intro h; cases h
    · intro h
      exact absurd (by simpa using h.2.2.2.1) h4
  rw [if_neg (by simpa using h4)]
  by_cases h5 : (password.data.any (fun c => decide ('0' ≤ c ∧ c ≤ '9'))) = true
  swap
  · rw [if_pos (by simpa using h5)]
    constructor
    · intro h; cases h
    · intro h
      exact absurd (by simpa using h.2.2.2.2) h5
  rw [if_neg (by simpa using h5)]
  constructor
  · intro _
    exact ⟨by omega, by omega, by simpa using h3, by simpa using h4, by simpa using h5⟩
  · intro _; rfl

/-- C14: validatePassword accepts a password, that is returns a nil error, if
and only if its length `len(password)`, in bytes, is between 8 and 128 and it
contains an uppercase letter A-Z, a lowercase letter a-z and a digit 0-9; for
every other password it returns an error. -/
theorem validatePassword_accepts_iff (password : String) :
    (validatePassword password = none ↔
      8 ≤ password.utf8ByteSize ∧ password.utf8ByteSize ≤ 128 ∧
      (∃ c ∈ password.data, 'A' ≤ c ∧ c ≤ 'Z') ∧
      (∃ c ∈ password.data, 'a' ≤ c ∧ c ≤ 'z') ∧
      (∃ c ∈ password.data, '0' ≤ c ∧ c ≤ '9')) ∧
    (¬ (8 ≤ password.utf8ByteSize ∧ password.utf8ByteSize ≤ 128 ∧
        (∃ c ∈ password.data, 'A' ≤ c ∧ c ≤ 'Z') ∧
        (∃ c ∈ password.data, 'a' ≤ c ∧ c ≤ 'z') ∧
        (∃ c ∈ password.data, '0' ≤ c ∧ c ≤ '9')) →
      ∃ err, validatePassword password = some err) := by
  refine ⟨validatePassword_eq_none_iff password, ?_⟩
  intro hnot
  cases hv : validatePassword password with
  | none => exact absurd ((validatePassword_eq_none_iff password).mp hv) hnot
  | some err => exact ⟨err, rfl⟩

/-- Witness of C14: a password without a digit is rejected, `Abcd1234` is not. -/
theorem validatePassword_accepts_iff_witness :
    validatePassword "Abcd1234" = none ∧ ∃ err, validatePassword "Abcdefgh" = some err :=
  ⟨(validatePassword_accepts_iff "Abcd1234").1.mpr (by decide),
    (validatePassword_accepts_iff "Abcdefgh").2 (by decide)⟩

end Api

namespace Api

open Http Sql

theorem findUser_receive (db : DB) (s : Stmt) (phone : String) :
    (db.receive s).findUser phone = db.findUser phone := rfl

/-- The reply of HandleLogin once the request is read and the account row is
looked up without a driver error. -/
theorem HandleLogin_lookup {σ : Type} (E : Env) (h : AuthHandler σ) (r : Request LoginRequest)
    (req : LoginRequest) (hmethod : r.Method = "POST") (hbody : r.Body = some req)
    (hphone : req.PhoneNumber ≠ "") (hpassword : req.Password ≠ "")
    (hdb : E.dbFails h.db.statements.length = false) :
    (h.db.findUser req.PhoneNumber = none →
      (HandleLogin E h r).1
        = .sent (sendError "Invalid phone number or password" none StatusUnauthorized)) ∧
    (∀ user, h.db.findUser req.PhoneNumber = some user → user.active = true →
      E.B.CompareHashAndPassword user.password_hash req.Password = false →
      (HandleLogin E h r).1
        = .sent (sendError "Invalid phone number or password" none StatusUnauthorized)) ∧
    (∀ user, h.db.findUser req.PhoneNumber = some user → user.active = false →
      (HandleLogin E h r).1 = .sent (sendError "Account is disabled" none StatusForbidden)) := by
  have hne : ¬ (req.PhoneNumber = "" ∨ req.Password = "") := by
    rintro (h1 | h1)
    · exact hphone h1
    · exact hpassword h1
  refine ⟨?_, ?_, ?_⟩
  · intro hnone
    unfold HandleLogin
    rw [if_neg (by rw [hmethod]; simp), hbody]
    simp only [if_neg hne, hdb, findUser_receive, hnone]
    rfl
  · intro user hsome hactive hcmp
    unfold HandleLogin
    rw [if_neg (by rw [hmethod]; simp), hbody]
    simp only [if_neg hne, hdb, findUser_receive, hsome, hactive, hcmp]
    rfl
  · intro user hsome hactive
    unfold HandleLogin
    rw [if_neg (by rw [hmethod]; simp), hbody]
    simp only [if_neg hne, hdb, findUser_receive, hsome, hactive]
    rfl

/-- C15, as the code stands: a login for a disabled account is answered with
status 403 and the message "Account is disabled", a login for a phone number
without an account with status 401 and the generic message. -/
theorem login_disabled_account_differs :
    (HandleLogin demoEnv demoHandler
        (postRequest { PhoneNumber := "+19995550103", Password := "Abcd1234" })).1
      = .sent (sendError "Account is disabled" none 403) ∧
    (HandleLogin demoEnv demoHandler
        (postRequest { PhoneNumber := "+19995550199", Password := "Abcd1234" })).1
      = .sent (sendError "Invalid phone number or password" none 401) ∧
    (HandleLogin demoEnv demoHandler
        (postRequest { PhoneNumber := "+19995550103", Password := "Abcd1234" })).1
      ≠ (HandleLogin demoEnv demoHandler
        (postRequest { PhoneNumber := "+19995550199", Password := "Abcd1234" })).1 := by
  decide

/-- C15, amended: when the account row is looked up without a driver error,
HandleLogin answers with one and the same response, status 401 and the message
"Invalid phone number or password", when there is no account for the phone
number and when the password is wrong for an active account; for a disabled
account it answers with status 403 and the message "Account is disabled". -/
theorem login_failure_responses {σ : Type} (E : Env) (h : AuthHandler σ)
    (r : Request LoginRequest) (req : LoginRequest) (hmethod : r.Method = "POST")
    (hbody : r.Body = some req) (hphone : req.PhoneNumber ≠ "") (hpassword : req.Password ≠ "")
    (hdb : E.dbFails h.db.statements.length = false) :
    (h.db.findUser req.PhoneNumber = none →
      (HandleLogin E h r).1
        = .sent (sendError "Invalid phone number or password" none 401)) ∧
    (∀ user, h.db.findUser req.PhoneNumber = some user → user.active = true →
      E.B.CompareHashAndPassword user.password_hash req.Password = false →
      (HandleLogin E h r).1
        = .sent (sendError "Invalid phone number or password" none 401)) ∧
    (∀ user, h.db.findUser req.PhoneNumber = some user → user.active = false →
      (HandleLogin E h r).1 = .sent (sendError "Account is disabled" none 403)) :=
  HandleLogin_lookup E h r req hmethod hbody hphone hpassword hdb

/-- Witness of C15, amended: no account, a wrong password, a disabled account. -/
theorem login_failure_responses_witness :
    (HandleLogin demoEnv demoHandler
        (postRequest { PhoneNumber := "+19995550199", Password := "Abcd1234" })).1
      = .sent (sendError "Invalid phone number or password" none 401) ∧
    (HandleLogin demoEnv demoHandler
        (postRequest { PhoneNumber := "+19995550100", Password := "Wxyz9876" })).1
      = .sent (sendError "Invalid phone number or password" none 401) ∧
    (HandleLogin demoEnv demoHandler
        (postRequest { PhoneNumber := "+19995550103", Password := "Wxyz9876" })).1
      = .sent (sendError "Account is disabled" none 403) :=
  ⟨(login_failure_responses demoEnv demoHandler
      (postRequest { PhoneNumber := "+19995550199", Password := "Abcd1234" })
      { PhoneNumber := "+19995550199", Password := "Abcd1234" } rfl rfl (by decide) (by decide)
      rfl).1 (by decide),
    (login_failure_responses demoEnv demoHandler
      (postRequest { PhoneNumber := "+19995550100", Password := "Wxyz9876" })
      { PhoneNumber := "+19995550100", Password := "Wxyz9876" } rfl rfl (by decide) (by decide)
      rfl).2.1 demoActiveUser (by decide) (by decide) (by decide),
    (login_failure_responses demoEnv demoHandler
      (postRequest { PhoneNumber := "+19995550103", Password := "Wxyz9876" })
      { PhoneNumber := "+19995550103", Password := "Wxyz9876" } rfl rfl (by decide) (by decide)
      rfl).2.2 demoDisabledUser (by decide) (by decide)⟩

end Api

namespace Api

open Http Sql

theorem findUser_isSome_of_mem (db : DB) (phone : String)
    (h : ∃ u ∈ db.auth_users, u.phone_number = phone) : ∃ u, db.findUser phone = some u := by
  cases hf : db.findUser phone with
  | some u => exact ⟨u, rfl⟩
  | none =>
    exfalso
    unfold DB.findUser at hf
    rw [List.find?_eq_none] at hf
    obtain ⟨u, hu, hp⟩ := h
    exact hf u hu (by simpa using hp)

/-- C16: when the account store holds an account for the phone number of a
registration request with a valid phone number, a valid password and an OTP
that the service verifies, HandleRegister leaves the accounts as they were and
inserts none, whatever the database does; when the lookup meets no driver
error, the answer is status 409 with the message "User with this phone number
already exists". -/
theorem register_existing_conflict {σ : Type} (E : Env) (svc : OTPService σ)
    (h : AuthHandler σ) (r : Request RegisterRequest) (req : RegisterRequest) (otp : σ)
    (hmethod : r.Method = "POST") (hbody : r.Body = some req)
    (hphone : validatePhoneNumber req.PhoneNumber = none)
    (hpassword : validatePassword req.Password = none)
    (hotp : svc.VerifyOTP h.otp req.PhoneNumber req.OTP = (.ok true, otp))
    (hexists : ∃ u ∈ h.db.auth_users, u.phone_number = req.PhoneNumber) :
    (HandleRegister E svc h r).2.db.auth_users = h.db.auth_users ∧
      (HandleRegister E svc h r).2.db.audit_log = h.db.audit_log ∧
      (∀ s ∈ (HandleRegister E svc h r).2.db.statements,
        s ∈ h.db.statements ∨ s = .selectID req.PhoneNumber) ∧
      (E.dbFails h.db.statements.length = false →
        (HandleRegister E svc h r).1
          = .sent (sendError "User with this phone number already exists" none 409)) := by
  obtain ⟨u, hu⟩ := findUser_isSome_of_mem h.db req.PhoneNumber hexists
  have hstmts : ∀ s ∈ (h.db.receive (.selectID req.PhoneNumber)).statements,
      s ∈ h.db.statements ∨ s = .selectID req.PhoneNumber := by
    intro s hs
    simpa [DB.receive] using hs
  unfold HandleRegister
  rw [if_neg (by rw [hmethod]; simp), hbody]
  simp only [hphone, hpassword, hotp]
  by_cases hdb : E.dbFails h.db.statements.length = true
  · simp only [hdb, if_true]
    exact ⟨rfl, rfl, hstmts, fun hc => by simp at hc⟩
  · simp only [hdb, findUser_receive, hu]
    exact ⟨rfl, rfl, hstmts, fun _ => rfl⟩

/-- Witness of C16: a registration for the phone number of an account, with the
code on file. -/
theorem register_existing_conflict_witness :
    (HandleRegister demoEnv (MockOTPService.service 0) demoHandler
        (postRequest
          { PhoneNumber := "+19995550100", Password := "Abcd1234", OTP := "654321" })).2.db.auth_users
      = demoHandler.db.auth_users ∧
    (HandleRegister demoEnv (MockOTPService.service 0) demoHandler
        (postRequest
          { PhoneNumber := "+19995550100", Password := "Abcd1234", OTP := "654321" })).1
      = .sent (sendError "User with this phone number already exists" none 409) :=
  ⟨(register_existing_conflict demoEnv (MockOTPService.service 0) demoHandler
      (postRequest { PhoneNumber := "+19995550100", Password := "Abcd1234", OTP := "654321" })
      { PhoneNumber := "+19995550100", Password := "Abcd1234", OTP := "654321" }
      (demoOTPService.VerifyOTP "+19995550100" "654321").2 rfl rfl (by decide) (by decide)
      (Prod.ext (by decide) rfl) ⟨demoActiveUser, by decide, by decide⟩).1,
    (register_existing_conflict demoEnv (MockOTPService.service 0) demoHandler
      (postRequest { PhoneNumber := "+19995550100", Password := "Abcd1234", OTP := "654321" })
      { PhoneNumber := "+19995550100", Password := "Abcd1234", OTP := "654321" }
      (demoOTPService.VerifyOTP "+19995550100" "654321").2 rfl rfl (by decide) (by decide)
      (Prod.ext (by decide) rfl) ⟨demoActiveUser, by decide, by decide⟩).2.2.2 rfl⟩

/-- C17: a registration request whose phone number fails validatePhoneNumber,
or whose password fails validatePassword, is answered with status 400 and the
validation error, the phone number being checked first; the handler state is
the one before the call: the OTP service was not called, so a code on file
stays, and the database received no statement. -/
theorem register_validation_first {σ : Type} (E : Env) (svc : OTPService σ)
    (h : AuthHandler σ) (r : Request RegisterRequest) (req : RegisterRequest)
    (hmethod : r.Method = "POST") (hbody : r.Body = some req)
    (hinvalid : validatePhoneNumber req.PhoneNumber ≠ none ∨
      validatePassword req.Password ≠ none) :
    (∃ message err,
      (HandleRegister E svc h r).1 = .sent (sendError message (some err) 400) ∧
      (validatePhoneNumber req.PhoneNumber = some err ∨
        (validatePhoneNumber req.PhoneNumber = none ∧
          validatePassword req.Password = some err))) ∧
      (HandleRegister E svc h r).2 = h := by
  cases hp : validatePhoneNumber req.PhoneNumber with
  | some err =>
    have hr : HandleRegister E svc h r
        = (.sent (sendError "Invalid phone number: " (some err) StatusBadRequest), h) := by
      unfold HandleRegister
      rw [if_neg (by rw [hmethod]; simp), hbody]
      simp only [hp]
    rw [hr]
    exact ⟨⟨_, err, rfl, Or.inl rfl⟩, rfl⟩
  | none =>
    cases hw : validatePassword req.Password with
    | some err =>
      have hr : HandleRegister E svc h r
          = (.sent (sendError "Invalid password: " (some err) StatusBadRequest), h) := by
        unfold HandleRegister
        rw [if_neg (by rw [hmethod]; simp), hbody]
        simp only [hp, hw]
      rw [hr]
      exact ⟨⟨_, err, rfl, Or.inr ⟨rfl, rfl⟩⟩, rfl⟩
    | none =>
      rcases hinvalid with h1 | h1
      · exact absurd hp h1
      · exact absurd hw h1

/-- Witness of C17: a password without a digit, with the right code on file. -/
theorem register_validation_first_witness :
    (∃ message err,
      (HandleRegister demoEnv (MockOTPService.service 0) demoHandler
        (postRequest
          { PhoneNumber := "+19995550100", Password := "Abcdefgh", OTP := "654321" })).1
        = .sent (sendError message (some err) 400) ∧
      (validatePhoneNumber "+19995550100" = some err ∨
        (validatePhoneNumber "+19995550100" = none ∧
          validatePassword "Abcdefgh" = some err))) ∧
      (HandleRegister demoEnv (MockOTPService.service 0) demoHandler
        (postRequest
          { PhoneNumber := "+19995550100", Password := "Abcdefgh", OTP := "654321" })).2
        = demoHandler :=
  register_validation_first demoEnv (MockOTPService.service 0) demoHandler
    (postRequest { PhoneNumber := "+19995550100", Password := "Abcdefgh", OTP := "654321" })
    { PhoneNumber := "+19995550100", Password := "Abcdefgh", OTP := "654321" } rfl rfl
    (Or.inr (by decide))

end Api

namespace Api

/-- The wrapped handler is called exactly when the header has the two pieces
`Bearer` and a token that ValidateJWT accepts, and then with the claims of the
token. -/
theorem JWTAuthMiddleware_next_iff {β : Type} (E : Env) (r : Http.Request β)
    (ctx : Http.Context) :
    JWTAuthMiddleware E r = .next ctx ↔
      ∃ token claims, r.Authorization = [.raw "Bearer", token] ∧
        Shared.ValidateJWT E.P E.JWT_SECRET (E.now 0) (E.now 1) token = .ok claims ∧
        ctx = { claims := claims, phone_number := claims.PhoneNumber,
                user_id := claims.UserID } := by
  unfold JWTAuthMiddleware
  constructor
  · intro h
    split_ifs at h with hempty
    split at h
    · rename_i bearer token hauth
      split_ifs at h with hb
      cases hv : Shared.ValidateJWT E.P E.JWT_SECRET (E.now 0) (E.now 1) token with
      | ok claims =>
        rw [hv] at h
        simp only [Http.Reply.next.injEq] at h
        have hb' : bearer = .raw "Bearer" := by simpa using hb
        exact ⟨token, claims, by rw [hauth, hb'], hv, h.symm⟩
      | error e => rw [hv] at h; cases h
      | panic => rw [hv] at h; cases h
      | fatal => rw [hv] at h; cases h
    · cases h
  · rintro ⟨token, claims, hauth, hv, rfl⟩
    rw [hauth, if_neg (by simp)]
    simp only [ne_eq, not_true_eq_false, if_false, hv]

/-- Every response that the middleware writes itself has status 401. -/
theorem JWTAuthMiddleware_sent {β : Type} (E : Env) (r : Http.Request β) (resp : Http.Response)
    (h : JWTAuthMiddleware E r = .sent resp) : resp.StatusCode = 401 := by
  unfold JWTAuthMiddleware at h
  split_ifs at h with hempty
  · cases h; rfl
  · split at h
    · rename_i bearer token hauth
      split_ifs at h with hb
      · cases h; rfl
      · cases hv : Shared.ValidateJWT E.P E.JWT_SECRET (E.now 0) (E.now 1) token with
        | ok claims => rw [hv] at h; cases h
        | error e => rw [hv] at h; cases h; rfl
        | panic => rw [hv] at h; cases h
        | fatal => rw [hv] at h; cases h
    · cases h; rfl

/-- C18, as the code stands: for the header `Bearer` followed by a token that
carries the MAC of the server secret and no expires-at claim, ValidateJWT
panics on the nil `ExpiresAt`, and so does the middleware: it writes no 401
response (and does not call the wrapped handler). -/
theorem middleware_panics_without_expiry :
    Shared.ValidateJWT demoEnv.P demoEnv.JWT_SECRET 0 0 (.compact noExpiryToken) = .panic ∧
      JWTAuthMiddleware demoEnv (bearerRequest [.raw "Bearer", .compact noExpiryToken])
        = .panic := by
  decide

end Api

namespace Api

theorem find?_node_none (endNodes : List Server) (serverID : String)
    (h : ∀ n ∈ endNodes, n.Name ≠ serverID) :
    endNodes.find? (fun endNode => decide (endNode.Name = serverID)) = none := by
  rw [List.find?_eq_none]
  intro n hn
  simpa using h n hn

theorem find?_node_some (endNodes : List Server) (serverID : String) (node : Server)
    (h : endNodes.find? (fun endNode => decide (endNode.Name = serverID)) = some node) :
    node ∈ endNodes ∧ node.Name = serverID :=
  ⟨List.mem_of_find?_eq_some h, by simpa using List.find?_some h⟩

theorem find?_user_none (users : List User) (username serverID : String)
    (h : ∀ u ∈ users, ¬ (u.Username = username ∧ u.ServerID = serverID)) :
    users.find? (fun user =>
      decide (user.Username = username) && decide (user.ServerID = serverID)) = none := by
  rw [List.find?_eq_none]
  intro u hu
  simpa using h u hu

theorem find?_user_some (users : List User) (username serverID : String) (user : User)
    (h : users.find? (fun user =>
      decide (user.Username = username) && decide (user.ServerID = serverID)) = some user) :
    user ∈ users ∧ user.Username = username ∧ user.ServerID = serverID :=
  ⟨List.mem_of_find?_eq_some h, by simpa using List.find?_some h⟩

theorem find?_user_isSome (users : List User) (username serverID : String)
    (h : ∃ u ∈ users, u.Username = username ∧ u.ServerID = serverID) :
    ∃ user, users.find? (fun user =>
      decide (user.Username = username) && decide (user.ServerID = serverID)) = some user := by
  cases hf : users.find? (fun user =>
      decide (user.Username = username) && decide (user.ServerID = serverID)) with
  | some user => exact ⟨user, rfl⟩
  | none =>
    exfalso
    rw [List.find?_eq_none] at hf
    obtain ⟨u, hu, h1, h2⟩ := h
    exact hf u hu (by simp [h1, h2])

/-- The function handleDownloadOVPN once the node and the binding are found. -/
theorem handleDownloadOVPN_unfold {β : Type} (M : Manager) (U : Upstream) (r : Http.Request β)
    (username serverID : String) (rest : List String) (endNodes : List Server)
    (users : List User) (node : Server) (user : User)
    (hmethod : r.Method = "GET")
    (hpath : Strings.Split (Strings.TrimPrefix r.Path "/api/ovpn/") '/'
      = username :: serverID :: rest)
    (hnodes : M.ListEndNodes = some endNodes) (husers : M.ListUsers = some users)
    (hnode : endNodes.find? (fun endNode => decide (endNode.Name = serverID)) = some node)
    (huser : users.find? (fun user =>
      decide (user.Username = username) && decide (user.ServerID = serverID)) = some user) :
    handleDownloadOVPN M U r =
      match downloadOVPNFromEndNode U node username with
      | (.panic, sent) => (.panic, sent)
      | (.fatal, sent) => (.fatal, sent)
      | (.error err, sent) =>
        (.sent (Http.Error "Failed to download OVPN file: " (some err) 500), sent)
      | (.ok ovpnContent, sent) =>
        (.sent
          { StatusCode := 200
            Header :=
              [("Content-Type", "application/x-openvpn-profile"),
               ("Content-Disposition",
                 "attachment; filename=\"" ++ (username ++ "_" ++ serverID ++ ".ovpn") ++ "\""),
               ("Content-Length", Fmt.decimal ovpnContent.length)]
            Body := .bytes ovpnContent }, sent) := by
  unfold handleDownloadOVPN
  rw [if_neg (by rw [hmethod]; simp), hpath]
  simp only [hnodes, husers, hnode, huser]
  rfl

/-- C19: for a GET request for `username` and `serverID` and every node list
and user list, handleDownloadOVPN answers with status 404 and sends no request
to an end-node when no node is named `serverID`, and when a node is but no user
record has both the username and the server id; it sends a request only when the
node and the binding both exist. -/
theorem download_not_found {β : Type} (M : Manager) (U : Upstream) (r : Http.Request β)
    (username serverID : String) (rest : List String) (endNodes : List Server)
    (hmethod : r.Method = "GET")
    (hpath : Strings.Split (Strings.TrimPrefix r.Path "/api/ovpn/") '/'
      = username :: serverID :: rest)
    (hnodes : M.ListEndNodes = some endNodes) :
    ((∀ n ∈ endNodes, n.Name ≠ serverID) →
      handleDownloadOVPN M U r
        = (.sent (Http.Error ("End-node '" ++ serverID ++ "' not found") none 404), [])) ∧
    (∀ users, M.ListUsers = some users → (∃ n ∈ endNodes, n.Name = serverID) →
      (∀ u ∈ users, ¬ (u.Username = username ∧ u.ServerID = serverID)) →
      handleDownloadOVPN M U r
        = (.sent (Http.Error
            ("User '" ++ username ++ "' not found on end-node '" ++ serverID ++ "'") none 404),
          [])) ∧
    ((handleDownloadOVPN M U r).2 ≠ [] →
      (∃ n ∈ endNodes, n.Name = serverID) ∧
      ∃ users, M.ListUsers = some users ∧
        ∃ u ∈ users, u.Username = username ∧ u.ServerID = serverID) := by
  refine ⟨?_, ?_, ?_⟩
  · intro hno
    unfold handleDownloadOVPN
    rw [if_neg (by rw [hmethod]; simp), hpath]
    simp only [hnodes, find?_node_none endNodes serverID hno]
    rfl
  · intro users husers hnode hno
    cases hf : endNodes.find? (fun endNode => decide (endNode.Name = serverID)) with
    | none =>
      exfalso
      rw [List.find?_eq_none] at hf
      obtain ⟨n, hn, hname⟩ := hnode
      exact hf n hn (by simpa using hname)
    | some node =>
      unfold handleDownloadOVPN
      rw [if_neg (by rw [hmethod]; simp), hpath]
      simp only [hnodes, hf, husers, find?_user_none users username serverID hno]
      rfl
  · intro hsent
    cases hf : endNodes.find? (fun endNode => decide (endNode.Name = serverID)) with
    | none =>
      exfalso
      apply hsent
      unfold handleDownloadOVPN
      rw [if_neg (by rw [hmethod]; simp), hpath]
      simp only [hnodes, hf]
    | some node =>
      obtain ⟨hmem, hname⟩ := find?_node_some endNodes serverID node hf
      refine ⟨⟨node, hmem, hname⟩, ?_⟩
      cases husers : M.ListUsers with
      | none =>
        exfalso
        apply hsent
        unfold handleDownloadOVPN
        rw [if_neg (by rw [hmethod]; simp), hpath]
        simp only [hnodes, hf, husers]
      | some users =>
        refine ⟨users, rfl, ?_⟩
        cases hu : users.find? (fun user =>
            decide (user.Username = username) && decide (user.ServerID = serverID)) with
        | none =>
          exfalso
          apply hsent
          unfold handleDownloadOVPN
          rw [if_neg (by rw [hmethod]; simp), hpath]
          simp only [hnodes, hf, husers, hu]
        | some user =>
          obtain ⟨hm, h1, h2⟩ := find?_user_some users username serverID user hu
          exact ⟨user, hm, h1, h2⟩

/-- Witness of C19: alice has no binding on the node; carol asks for a node
that is not registered. -/
theorem download_not_found_witness :
    handleDownloadOVPN demoManager (demoUpstream .transportError)
        (getRequest "/api/ovpn/carol/node-us-9")
      = (.sent (Http.Error ("End-node '" ++ "node-us-9" ++ "' not found") none 404), []) ∧
    handleDownloadOVPN demoManager (demoUpstream .transportError)
        (getRequest "/api/ovpn/alice/node-eu-1")
      = (.sent (Http.Error
          ("User '" ++ "alice" ++ "' not found on end-node '" ++ "node-eu-1" ++ "'") none 404),
        []) :=
  ⟨(download_not_found demoManager (demoUpstream .transportError)
      (getRequest "/api/ovpn/carol/node-us-9") "carol" "node-us-9" [] [demoNode]
      rfl (by decide) rfl).1 (by decide),
    (download_not_found demoManager (demoUpstream .transportError)
      (getRequest "/api/ovpn/alice/node-eu-1") "alice" "node-eu-1" [] [demoNode]
      rfl (by decide) rfl).2.1 [demoUser] rfl ⟨demoNode, by decide, by decide⟩ (by decide)⟩

end Api

namespace Api

/-- C20, as the code stands: when the transport fails there is no upstream
status, and the error in the answer is the transport error, which carries no
status code. -/
theorem download_transport_error_without_status :
    (handleDownloadOVPN demoManager (demoUpstream .transportError)
        (getRequest "/api/ovpn/bob/node-eu-1")).1
      = .sent (Http.Error "Failed to download OVPN file: " (some .failedToDownload) 500) ∧
    ¬ ∃ statusCode : Int,
      (handleDownloadOVPN demoManager (demoUpstream .transportError)
        (getRequest "/api/ovpn/bob/node-eu-1")).1
      = .sent (Http.Error "Failed to download OVPN file: "
          (some (.downloadStatus statusCode)) 500) := by
  have h : (handleDownloadOVPN demoManager (demoUpstream .transportError)
        (getRequest "/api/ovpn/bob/node-eu-1")).1
      = .sent (Http.Error "Failed to download OVPN file: " (some .failedToDownload) 500) := by
    decide
  refine ⟨h, ?_⟩
  rintro ⟨statusCode, hc⟩
  rw [h] at hc
  simp [Http.Error] at hc

/-- C20, amended: when the node and the binding exist and the request to the
end-node is sent, then for the answer 200 with body `b` handleDownloadOVPN
writes status 200 with exactly the bytes `b`, Content-Length the length of `b`
and the attachment filename `username_serverID.ovpn`; for an answer with another
status it writes status 500, no artifact bytes, and the error with that
upstream status code; when the transport fails it writes status 500, no
artifact bytes, and the transport error. -/
theorem download_outcomes {β : Type} (M : Manager) (U : Upstream) (r : Http.Request β)
    (username serverID : String) (rest : List String) (endNodes : List Server)
    (users : List User) (node : Server)
    (hmethod : r.Method = "GET")
    (hpath : Strings.Split (Strings.TrimPrefix r.Path "/api/ovpn/") '/'
      = username :: serverID :: rest)
    (hnodes : M.ListEndNodes = some endNodes) (husers : M.ListUsers = some users)
    (hnode : endNodes.find? (fun endNode => decide (endNode.Name = serverID)) = some node)
    (hbinding : ∃ u ∈ users, u.Username = username ∧ u.ServerID = serverID)
    (hrequest : U.NewRequest (ovpnURL node username) = true) :
    (∀ b, U.Do (ovpnURL node username) = .response 200 (some b) →
      handleDownloadOVPN M U r =
        (.sent
          { StatusCode := 200
            Header :=
              [("Content-Type", "application/x-openvpn-profile"),
               ("Content-Disposition",
                 "attachment; filename=\"" ++ (username ++ "_" ++ serverID ++ ".ovpn") ++ "\""),
               ("Content-Length", Fmt.decimal b.length)]
            Body := .bytes b }, [ovpnURL node username])) ∧
    (∀ statusCode body, statusCode ≠ 200 →
      U.Do (ovpnURL node username) = .response statusCode body →
      handleDownloadOVPN M U r =
        (.sent (Http.Error "Failed to download OVPN file: "
          (some (.downloadStatus statusCode)) 500), [ovpnURL node username])) ∧
    (U.Do (ovpnURL node username) = .transportError →
      handleDownloadOVPN M U r =
        (.sent (Http.Error "Failed to download OVPN file: " (some .failedToDownload) 500),
          [ovpnURL node username])) := by
  obtain ⟨user, huser⟩ := find?_user_isSome users username serverID hbinding
  have hunfold := handleDownloadOVPN_unfold M U r username serverID rest endNodes users node
    user hmethod hpath hnodes husers hnode huser
  refine ⟨?_, ?_, ?_⟩
  · intro b hdo
    rw [hunfold]
    simp [downloadOVPNFromEndNode, hrequest, hdo]
  · intro statusCode body hne hdo
    rw [hunfold]
    simp [downloadOVPNFromEndNode, hrequest, hdo, hne]
  · intro hdo
    rw [hunfold]
    simp [downloadOVPNFromEndNode, hrequest, hdo]

/-- Witness of C20, amended: the end-node answers 200 with three bytes, and
answers 404. -/
theorem download_outcomes_witness :
    handleDownloadOVPN demoManager (demoUpstream (.response 200 (some [99, 97, 10])))
        (getRequest "/api/ovpn/bob/node-eu-1") =
      (.sent
        { StatusCode := 200
          Header :=
            [("Content-Type", "application/x-openvpn-profile"),
             ("Content-Disposition",
               "attachment; filename=\"" ++ ("bob" ++ "_" ++ "node-eu-1" ++ ".ovpn") ++ "\""),
             ("Content-Length", Fmt.decimal [(99 : UInt8), 97, 10].length)]
          Body := .bytes [99, 97, 10] }, [ovpnURL demoNode "bob"]) ∧
    handleDownloadOVPN demoManager (demoUpstream (.response 404 none))
        (getRequest "/api/ovpn/bob/node-eu-1") =
      (.sent (Http.Error "Failed to download OVPN file: " (some (.downloadStatus 404)) 500),
        [ovpnURL demoNode "bob"]) :=
  ⟨(download_outcomes demoManager (demoUpstream (.response 200 (some [99, 97, 10])))
      (getRequest "/api/ovpn/bob/node-eu-1") "bob" "node-eu-1" [] [demoNode] [demoUser]
      demoNode rfl (by decide) rfl rfl (by decide) ⟨demoUser, by decide, by decide⟩ rfl).1
      [99, 97, 10] rfl,
    (download_outcomes demoManager (demoUpstream (.response 404 none))
      (getRequest "/api/ovpn/bob/node-eu-1") "bob" "node-eu-1" [] [demoNode] [demoUser]
      demoNode rfl (by decide) rfl rfl (by decide) ⟨demoUser, by decide, by decide⟩ rfl).2.1
      404 none (by decide) rfl⟩

end Api

/-! ## Claims on the unverified introspection and the validators -/

namespace Shared

open Jwt

/-- IsTokenExpired on a token that does not parse, and on a token that parses
and has an expires-at claim. -/
theorem IsTokenExpired_of_parsed (now : Time) (tokenString : TokenString) :
    (∀ err, ParseUnverified tokenString = .error err →
      IsTokenExpired now tokenString = .ok true) ∧
    (∀ token parts exp, ParseUnverified tokenString = .ok (token, parts) →
      token.Claims.ExpiresAt = some exp →
      IsTokenExpired now tokenString = .ok (decide (exp < now))) := by
  constructor
  · intro err h
    unfold IsTokenExpired
    rw [h]
  · intro token parts exp h hexp
    unfold IsTokenExpired
    rw [h]
    simp only [hexp]
    rfl

/-- C27, as the code stands: for a token that parses and carries no expires-at
claim, IsTokenExpired panics on the nil `ExpiresAt`; ValidateJWT does so too
when the token carries the MAC of the server secret. -/
theorem isTokenExpired_panics_without_expiry :
    (∃ token, ParseUnverified (.compact noExpiryToken) = .ok (token, noExpiryToken)) ∧
      IsTokenExpired 0 (.compact noExpiryToken) = .panic ∧
      ValidateJWT demoPrimitives demoSecret 0 0 (.compact noExpiryToken) = .panic := by
  exact ⟨⟨_, rfl⟩, by decide, by decide⟩

end Shared

namespace Api

/-- C28, as the code stands: the string of a plus sign and nine digits has ten
bytes and matches the pattern, so validatePhoneNumber accepts it; it contains
nine digits. -/
theorem validatePhoneNumber_accepts_nine_digits :
    validatePhoneNumber "+123456789" = none ∧
      ("+123456789".data.filter (fun c => decide ('0' ≤ c ∧ c ≤ '9'))).length = 9 := by
  decide

theorem isAdmin_eq_true (username : String) (h : isAdmin username = true) :
    username = "admin" ∨ username = "root" ∨ username = "administrator" := by
  simpa [isAdmin] using h

theorem isAdmin_of_validatePhoneNumber (s : String) (h : validatePhoneNumber s = none) :
    isAdmin s = false := by
  cases ha : isAdmin s with
  | false => rfl
  | true =>
    exfalso
    rcases isAdmin_eq_true s ha with rfl | rfl | rfl
    · revert h; decide
    · revert h; decide
    · revert h; decide

/-- The reply of handleGetUserStats to a GET request of an authenticated user
for a user name. -/
theorem handleGetUserStats_of_authenticated {σ κ β : Type} (E : Env) (S : StatsStore σ κ)
    (r : Http.Request β) (a u : String) (hmethod : r.Method = "GET")
    (hauth : validateJWTToken E r = .ok a)
    (hpath : Strings.TrimPrefix r.Path "/vpn/stats/" = u) (hu : u ≠ "") :
    handleGetUserStats E S r =
      if u ≠ a ∧ isAdmin a = false then
        (.error (Http.Error "Forbidden - you can only access your own statistics" none 403), [])
      else
        match S.getUserStatistics u with
        | none =>
          (.error (Http.Error "Failed to retrieve statistics: " (some (.external "database"))
            500), [.statsRead u])
        | some stats =>
          match S.getConnectionHistory u with
          | none =>
            (.error (Http.Error "Failed to retrieve connection history: "
              (some (.external "database")) 500), [.statsRead u, .historyRead u])
          | some connections =>
            (.json
              { Success := true
                Message := "Statistics retrieved successfully"
                Data := some (stats, connections)
                Timestamp := GoTime.Unix (E.now 2) },
              [.statsRead u, .historyRead u,
               .audit "VPN_STATS_ACCESSED" a ("Statistics accessed for user " ++ u)
                 r.RemoteAddr]) := by
  unfold handleGetUserStats
  rw [if_neg (by rw [hmethod]; simp), hauth]
  simp only [hpath, if_neg hu]
  by_cases hc : u ≠ a ∧ isAdmin a = false
  · rw [if_pos hc, if_pos (by simpa using hc)]
    rfl
  · rw [if_neg hc, if_neg (by simpa using hc)]
    rfl

end Api

namespace Api

/-- C26: for a GET request of an authenticated identity `a` for a user name `u`
(the non-empty rest of the path), handleGetUserStats answers with status 403 if
and only if `u ≠ a` and `a` is not one of the admin user names, and then reads
nothing; otherwise it goes on to read the statistics of `u`. -/
theorem stats_forbidden_iff {σ κ β : Type} (E : Env) (S : StatsStore σ κ)
    (r : Http.Request β) (a u : String) (hmethod : r.Method = "GET")
    (hauth : validateJWTToken E r = .ok a)
    (hpath : Strings.TrimPrefix r.Path "/vpn/stats/" = u) (hu : u ≠ "") :
    ((handleGetUserStats E S r).1
        = .error (Http.Error "Forbidden - you can only access your own statistics" none 403) ↔
      (u ≠ a ∧ isAdmin a = false)) ∧
    ((u ≠ a ∧ isAdmin a = false) → (handleGetUserStats E S r).2 = []) ∧
    (¬ (u ≠ a ∧ isAdmin a = false) →
      ∃ rest, (handleGetUserStats E S r).2 = .statsRead u :: rest) := by
  rw [handleGetUserStats_of_authenticated E S r a u hmethod hauth hpath hu]
  by_cases hc : u ≠ a ∧ isAdmin a = false
  · rw [if_pos hc]
    exact ⟨⟨fun _ => hc, fun _ => rfl⟩, fun _ => rfl, fun hn => absurd hc hn⟩
  · rw [if_neg hc]
    refine ⟨⟨?_, fun h => absurd h hc⟩, fun h => absurd h hc, fun _ => ?_⟩
    · intro h
      exfalso
      cases hs : S.getUserStatistics u with
      | none =>
        rw [hs] at h
        simp [Http.Error] at h
      | some stats =>
        rw [hs] at h
        cases hk : S.getConnectionHistory u with
        | none =>
          rw [hk] at h
          simp [Http.Error] at h
        | some connections =>
          rw [hk] at h
          simp at h
    · cases hs : S.getUserStatistics u with
      | none => exact ⟨_, rfl⟩
      | some stats =>
        cases hk : S.getConnectionHistory u with
        | none => exact ⟨_, rfl⟩
        | some connections => exact ⟨_, rfl⟩

/-- Witness of C26: the identity `+19995550100` asks for the statistics of
another user. -/
theorem stats_forbidden_iff_witness :
    (handleGetUserStats demoEnv demoStats (statsRequest "/vpn/stats/+19995550101")).1
      = .error (Http.Error "Forbidden - you can only access your own statistics" none 403) :=
  (stats_forbidden_iff demoEnv demoStats (statsRequest "/vpn/stats/+19995550101")
    "+19995550100" "+19995550101" rfl (by decide) (by decide) (by decide)).1.mpr (by decide)

/-- C30: a string that validatePhoneNumber accepts is none of the admin user
names: isAdmin returns false for it.  So a GET request of an identity that
validatePhoneNumber accepts, for a user name (the non-empty rest of the path)
other than the identity, is answered by handleGetUserStats with status 403, no
statistics being read. -/
theorem phone_identity_never_admin (s : String) (hphone : validatePhoneNumber s = none) :
    isAdmin s = false ∧
      ∀ (σ κ β : Type) (E : Env) (S : StatsStore σ κ) (r : Http.Request β) (u : String),
        r.Method = "GET" → validateJWTToken E r = .ok s →
        Strings.TrimPrefix r.Path "/vpn/stats/" = u → u ≠ "" → u ≠ s →
        handleGetUserStats E S r =
          (.error (Http.Error "Forbidden - you can only access your own statistics" none 403),
            []) := by
  have hadmin := isAdmin_of_validatePhoneNumber s hphone
  refine ⟨hadmin, ?_⟩
  intro σ κ β E S r u hmethod hauth hpath hu hne
  rw [handleGetUserStats_of_authenticated E S r s u hmethod hauth hpath hu,
    if_pos ⟨hne, hadmin⟩]

/-- Witness of C30: the identity `+19995550100`. -/
theorem phone_identity_never_admin_witness :
    isAdmin "+19995550100" = false ∧
      handleGetUserStats demoEnv demoStats (statsRequest "/vpn/stats/+19995550101") =
        (.error (Http.Error "Forbidden - you can only access your own statistics" none 403),
          []) :=
  ⟨(phone_identity_never_admin "+19995550100" (by decide)).1,
    (phone_identity_never_admin "+19995550100" (by decide)).2 String String Unit demoEnv
      demoStats (statsRequest "/vpn/stats/+19995550101") "+19995550101" rfl (by decide)
      (by decide) (by decide) (by decide)⟩

end Api

/-! ## Claims on the management API -/

namespace Api

/-- A create-user request with the port or the protocol unset does not reach
the defaults: validateUserInput rejects it first. -/
theorem handleCreateUser_unset_rejected (C : ManagerCalls) (now : Nat → Time)
    (r : Http.Request CreateUserRequest) (req : CreateUserRequest)
    (hbody : r.Body = some req) (hunset : req.Port = 0 ∨ req.Protocol = "") :
    ∃ err, handleCreateUser C now r
      = (.error (Http.Error "Invalid input: " (some err) 400), []) := by
  have hv : ∃ err, validateUserInput req.Username req.Port req.Protocol = some err := by
    unfold validateUserInput
    cases hn : validateUsername req.Username with
    | some err => exact ⟨err, rfl⟩
    | none =>
      rcases hunset with hp | hp
      · simp only [hp]
        exact ⟨.portRange, by simp⟩
      · by_cases hport : req.Port < 1 ∨ req.Port > 65535
        · exact ⟨.portRange, by simp [hport]⟩
        · exact ⟨.protocolInvalid, by simp [hport, hp]⟩
  obtain ⟨err, herr⟩ := hv
  refine ⟨err, ?_⟩
  unfold handleCreateUser
  rw [hbody]
  simp only [herr]
  rfl

/-- C29, as the code stands: a create-user request with a valid user name and
the port unset is answered with status 400 and the error of the port range,
and one with the protocol unset with status 400 and the error of the protocol;
the manager is not called, no user is created. -/
theorem createUser_unset_is_rejected :
    validateUsername "alice" = none ∧
      handleCreateUser demoCalls (fun _ => 0) (createRequest 0 "udp")
        = (.error (Http.Error "Invalid input: " (some .portRange) 400), []) ∧
      handleCreateUser demoCalls (fun _ => 0) (createRequest 1194 "")
        = (.error (Http.Error "Invalid input: " (some .protocolInvalid) 400), []) := by
  decide

/-- The reply of handleGetEndNode is the same for every server id. -/
theorem handleGetEndNode_const (now : Nat → Time) (serverID : String) :
    handleGetEndNode now serverID =
      (.json
        { Success := true
          Message := "End-node information retrieved successfully"
          Data := none
          Timestamp := GoTime.Unix (now 0) }, []) := rfl

/-- C21, as the code stands: a GET request for an end-node identifier is
answered with status 200, the message "End-node information retrieved
successfully" and no record, for the identifier of a registered node and for an
identifier that no registered node has. -/
theorem getEndNode_without_lookup :
    demoManager.ListEndNodes = some [demoNode] ∧ demoNode.Name = "node-eu-1" ∧
      handleEndNodeOperations demoCalls (fun _ => 0) (getRequest "/api/endnodes/node-eu-1")
        = (.json
            { Success := true
              Message := "End-node information retrieved successfully"
              Data := none
              Timestamp := 0 }, []) ∧
      handleEndNodeOperations demoCalls (fun _ => 0) (getRequest "/api/endnodes/node-us-9")
        = (.json
            { Success := true
              Message := "End-node information retrieved successfully"
              Data := none
              Timestamp := 0 }, []) := by
  decide

end Api

/-! ## Claims on the audit events, the tokens of a session and the password hash -/

namespace Api

open Http Sql

end Api
namespace Api

open Http Sql

end Api
namespace Api

open Http Sql

/-- C25, as the code stands: validatePassword accepts the password
`longPassword` of 80 bytes, beyond the 72 bytes that bcrypt reads.  With a
bcrypt package that rejects such a password the registration consumes the OTP
and ends in 500 "Internal server error"; with one that hashes the first 72
bytes the registration succeeds and a later login with `longPassword2`, another
password with the same first 72 bytes, succeeds too. -/
theorem long_password_breaks_roundtrip :
    validatePassword longPassword = none ∧
    validatePassword longPassword2 = none ∧
    longPassword.utf8ByteSize = 80 ∧
    longPassword2 ≠ longPassword ∧
    (HandleRegister (limitEnv true) (MockOTPService.service 0) freshHandler longRegister).1
      = .sent (sendError "Internal server error" none StatusInternalServerError) ∧
    (HandleRegister (limitEnv true) (MockOTPService.service 0) freshHandler
      longRegister).2.otp.otpStore "+19995550100" = none ∧
    (HandleRegister (limitEnv false) (MockOTPService.service 0) freshHandler
      longRegister).1.success = true ∧
    (HandleLogin (limitEnv false)
      (HandleRegister (limitEnv false) (MockOTPService.service 0) freshHandler longRegister).2
      longLogin2).1.success = true := by
  decide

end Api
namespace Api

open Http Sql

theorem logAuditEvent_auth_users (E : Env) (db : DB) (now : Time)
    (action username details ipAddress : String) :
    (logAuditEvent E db now action username details ipAddress).auth_users = db.auth_users := by
  unfold logAuditEvent
  simp only
  split_ifs <;> rfl

set_option maxHeartbeats 2000000 in
/-- What a registration that is answered with success has done: both validations
passed, no account had the phone number, the password was hashed, the row was
added with the new id and the token is the one GenerateJWT issues. -/
theorem HandleRegister_of_success {σ : Type} (E : Env) (svc : OTPService σ) (h : AuthHandler σ)
    (r : Request RegisterRequest) (hs : (HandleRegister E svc h r).1.success = true) :
    ∃ req hashed, r.Body = some req ∧
      validatePhoneNumber req.PhoneNumber = none ∧
      validatePassword req.Password = none ∧
      h.db.findUser req.PhoneNumber = none ∧
      E.B.GenerateFromPassword req.Password 12 E.salt = some hashed ∧
      Shared.GenerateJWT E.P E.JWT_SECRET (E.now 2) (E.now 3) (E.now 4) req.PhoneNumber E.newID
        = .ok (Shared.issuedToken E.P E.JWT_SECRET (E.now 2) (E.now 3) (E.now 4)
            req.PhoneNumber E.newID) ∧
      (HandleRegister E svc h r).1.status = some StatusCreated ∧
      (HandleRegister E svc h r).1.token
        = some (Shared.issuedToken E.P E.JWT_SECRET (E.now 2) (E.now 3) (E.now 4)
            req.PhoneNumber E.newID) ∧
      (HandleRegister E svc h r).2.db.auth_users = h.db.auth_users ++
        [{ id := E.newID, phone_number := req.PhoneNumber, password_hash := hashed,
           created_at := E.now 0, last_login := E.now 1, active := true }] := by
  unfold HandleRegister at hs ⊢
  dsimp only at hs ⊢
  by_cases hm : r.Method ≠ "POST"
  · rw [if_pos hm] at hs
    simp [Reply.success, sendError] at hs
  rw [if_neg hm] at hs ⊢
  cases hb : r.Body with
  | none =>
    rw [hb] at hs
    simp [Reply.success, sendError] at hs
  | some req =>
    rw [hb] at hs
    simp only at hs ⊢
    cases hp : validatePhoneNumber req.PhoneNumber with
    | some err =>
      rw [hp] at hs
      simp [Reply.success, sendError] at hs
    | none =>
      rw [hp] at hs
      simp only at hs ⊢
      cases hw : validatePassword req.Password with
      | some err =>
        rw [hw] at hs
        simp [Reply.success, sendError] at hs
      | none =>
        rw [hw] at hs
        simp only at hs ⊢
        repeat' (split at hs)
        all_goals try (simp [Reply.success, sendError] at hs; done)
        rename_i _ otp hv hf1 _ hfind _ hashed hgen hf2 _ token hjwt
        obtain ⟨-, -, rfl⟩ := Shared.GenerateJWT_eq_ok _ _ _ _ _ _ _ _ hjwt
        rw [findUser_receive] at hfind
        refine ⟨req, hashed, rfl, hp, hw, hfind, hgen, hjwt, ?_, ?_, ?_⟩
        · rw [if_neg hf1, if_neg hf2]
          rfl
        · rw [if_neg hf1, if_neg hf2]
          rfl
        · rw [if_neg hf1, if_neg hf2]
          show (logAuditEvent E _ _ _ _ _ _).auth_users = _
          rw [logAuditEvent_auth_users]
          rfl

end Api

namespace Api

open Http Sql

/-- The reply of HandleLogin to a request with the password of an active
account, under a secret of at least 32 bytes. -/
theorem HandleLogin_of_match {σ : Type} (E : Env) (h : AuthHandler σ) (r : Request LoginRequest)
    (req : LoginRequest) (user : AuthUser) (hmethod : r.Method = "POST")
    (hbody : r.Body = some req) (hphone : req.PhoneNumber ≠ "") (hpassword : req.Password ≠ "")
    (hdb : E.dbFails h.db.statements.length = false)
    (hfind : h.db.findUser req.PhoneNumber = some user) (hactive : user.active = true)
    (hcmp : E.B.CompareHashAndPassword user.password_hash req.Password = true)
    (hsecret : 32 ≤ E.JWT_SECRET.utf8ByteSize) :
    (HandleLogin E h r).1.status = some StatusOK ∧
    (HandleLogin E h r).1.token
      = some (Shared.issuedToken E.P E.JWT_SECRET (E.now 1) (E.now 2) (E.now 3)
          req.PhoneNumber user.id) := by
  have hne : ¬ (req.PhoneNumber = "" ∨ req.Password = "") := by
    rintro (h1 | h1)
    · exact hphone h1
    · exact hpassword h1
  unfold HandleLogin
  rw [if_neg (by rw [hmethod]; simp), hbody]
  simp only [if_neg hne, hdb, findUser_receive, hfind, hactive, hcmp,
    Shared.GenerateJWT_of_valid E.P E.JWT_SECRET _ _ _ req.PhoneNumber user.id hphone hsecret]
  exact ⟨rfl, rfl⟩

end Api

namespace Shared

open Jwt

/-- Two tokens that GenerateJWT issues for one identity under one secret are
equal exactly when their three clock reads fall in the same seconds. -/
theorem issuedToken_eq_iff (P : Primitives) (secret : String) (tExp tIat tNbf : Time)
    (tExp' tIat' tNbf' : Time) (phoneNumber : String) (userID : Int) :
    issuedToken P secret tExp tIat tNbf phoneNumber userID
        = issuedToken P secret tExp' tIat' tNbf' phoneNumber userID ↔
      NewNumericDate tExp = NewNumericDate tExp' ∧ NewNumericDate tIat = NewNumericDate tIat' ∧
        NewNumericDate tNbf = NewNumericDate tNbf' := by
  constructor
  · intro h
    simp only [issuedToken, issuedSegments, issuedClaims, NewNumericDate_add_day,
      TokenString.compact.injEq, Segments.mk.injEq, Claims.mk.injEq, Option.some.injEq] at h
    obtain ⟨-, ⟨hc, -, -⟩, -⟩ := h
    simp only [RegisteredClaims.mk.injEq, Option.some.injEq, true_and, and_true] at hc
    obtain ⟨h1, h3, h2⟩ := hc
    refine ⟨?_, h2, h3⟩
    unfold Time at *
    omega
  · rintro ⟨h1, h2, h3⟩
    simp only [issuedToken, issuedSegments, issuedClaims, NewNumericDate_add_day, h1, h2, h3]

end Shared

namespace Api

open Http Sql

theorem validatePhoneNumber_ne_empty (s : String) (h : validatePhoneNumber s = none) : s ≠ "" := by
  rintro rfl
  revert h
  decide

theorem validatePassword_ne_empty (s : String) (h : validatePassword s = none) : s ≠ "" := by
  rintro rfl
  revert h
  decide

end Api
namespace Api

open Http Sql

/-- C24, as the code stands: the scenario registration at 5.1 s is
answered with 201 and a token, and the login at 5.9 s, within the same second,
is answered with 200 and the same token. -/
theorem login_same_second_same_token :
    (registeredAt 5100000000).1.status = some 201 ∧
    (registeredAt 5100000000).1.token.isSome = true ∧
    (HandleLogin (demoEnvAt 5900000000) (registeredAt 5100000000).2 scenarioLogin).1.status
      = some 200 ∧
    (HandleLogin (demoEnvAt 5900000000) (registeredAt 5100000000).2 scenarioLogin).1.token
      = (registeredAt 5100000000).1.token := by
  decide

/-- C24, amended: after a registration answered with success (201 with a
token), a login with the same phone number and password, for which bcrypt
accepts the stored hash and the lookup meets no driver error, is answered with
200 and the token that GenerateJWT issues at the clock reads `now2` of the
login; it equals the registration token exactly when the three reads of the
login fall in the same seconds as those of the registration, and so differs
from it once the login is made in a later second. -/
theorem login_after_register {σ : Type} (E : Env) (svc : OTPService σ) (h : AuthHandler σ)
    (rr : Request RegisterRequest) (rl : Request LoginRequest) (req : RegisterRequest)
    (now2 : Nat → Time) (dbFails2 : Nat → Bool)
    (hreq : rr.Body = some req)
    (hs : (HandleRegister E svc h rr).1.success = true)
    (hmethod : rl.Method = "POST")
    (hbody : rl.Body = some { PhoneNumber := req.PhoneNumber, Password := req.Password })
    (hdb : dbFails2 (HandleRegister E svc h rr).2.db.statements.length = false)
    (hbcrypt : ∀ hashed, E.B.GenerateFromPassword req.Password 12 E.salt = some hashed →
      E.B.CompareHashAndPassword hashed req.Password = true) :
    (HandleRegister E svc h rr).1.status = some StatusCreated ∧
    (HandleRegister E svc h rr).1.token
      = some (Shared.issuedToken E.P E.JWT_SECRET (E.now 2) (E.now 3) (E.now 4)
          req.PhoneNumber E.newID) ∧
    (HandleLogin { E with now := now2, dbFails := dbFails2 }
      (HandleRegister E svc h rr).2 rl).1.status = some StatusOK ∧
    (HandleLogin { E with now := now2, dbFails := dbFails2 }
      (HandleRegister E svc h rr).2 rl).1.token
      = some (Shared.issuedToken E.P E.JWT_SECRET (now2 1) (now2 2) (now2 3)
          req.PhoneNumber E.newID) ∧
    ((HandleLogin { E with now := now2, dbFails := dbFails2 }
        (HandleRegister E svc h rr).2 rl).1.token = (HandleRegister E svc h rr).1.token ↔
      Jwt.NewNumericDate (now2 1) = Jwt.NewNumericDate (E.now 2) ∧
        Jwt.NewNumericDate (now2 2) = Jwt.NewNumericDate (E.now 3) ∧
        Jwt.NewNumericDate (now2 3) = Jwt.NewNumericDate (E.now 4)) := by
  obtain ⟨req', hashed, hb, hp, hw, hfind, hgen, hjwt, hst, htok, husers⟩ :=
    HandleRegister_of_success E svc h rr hs
  rw [hreq] at hb
  cases hb
  obtain ⟨hphone, hsecret, -⟩ := Shared.GenerateJWT_eq_ok _ _ _ _ _ _ _ _ hjwt
  have hrow : (HandleRegister E svc h rr).2.db.findUser req.PhoneNumber
      = some { id := E.newID, phone_number := req.PhoneNumber, password_hash := hashed,
               created_at := E.now 0, last_login := E.now 1, active := true } := by
    unfold DB.findUser at hfind ⊢
    rw [husers, List.find?_append, hfind]
    simp
  obtain ⟨hst2, htok2⟩ :=
    HandleLogin_of_match { E with now := now2, dbFails := dbFails2 }
      (HandleRegister E svc h rr).2 rl
      { PhoneNumber := req.PhoneNumber, Password := req.Password } _ hmethod hbody hphone
      (validatePassword_ne_empty _ hw) hdb hrow rfl (hbcrypt hashed hgen) hsecret
  refine ⟨hst, htok, hst2, htok2, ?_⟩
  rw [htok, htok2, Option.some.injEq]
  exact Shared.issuedToken_eq_iff _ _ _ _ _ _ _ _ _ _

/-- The scenario: registration at 5.1 s, login at 5.9 s and at 6.2 s. -/
theorem login_after_register_witness :
    ((HandleLogin { demoEnvAt 5100000000 with now := fun _ => 5900000000, dbFails := fun _ => false }
        (registeredAt 5100000000).2 scenarioLogin).1.token = (registeredAt 5100000000).1.token ↔
      Jwt.NewNumericDate 5900000000 = Jwt.NewNumericDate 5100000000 ∧
        Jwt.NewNumericDate 5900000000 = Jwt.NewNumericDate 5100000000 ∧
        Jwt.NewNumericDate 5900000000 = Jwt.NewNumericDate 5100000000) ∧
    (HandleLogin { demoEnvAt 5100000000 with now := fun _ => 6200000000, dbFails := fun _ => false }
        (registeredAt 5100000000).2 scenarioLogin).1.token
      = some (Shared.issuedToken demoPrimitives demoSecret 6200000000 6200000000 6200000000
          "+19995550100" 2) :=
  ⟨(login_after_register (demoEnvAt 5100000000) (MockOTPService.service 0) freshHandler
      scenarioRegister scenarioLogin
      { PhoneNumber := "+19995550100", Password := "Abcd1234", OTP := "654321" }
      (fun _ => 5900000000) (fun _ => false) rfl (by decide) rfl rfl rfl
      (by intro hashed hh; cases hh; decide)).2.2.2.2,
    (login_after_register (demoEnvAt 5100000000) (MockOTPService.service 0) freshHandler
      scenarioRegister scenarioLogin
      { PhoneNumber := "+19995550100", Password := "Abcd1234", OTP := "654321" }
      (fun _ => 6200000000) (fun _ => false) rfl (by decide) rfl rfl rfl
      (by intro hashed hh; cases hh; decide)).2.2.2.1⟩

end Api
/-! ## Claim on the server records of a location -/

namespace Api

open Sql

theorem serversOf_withoutPassword (D : Driver) (servers : List ServerRow) (locationID : Int) :
    Fleet.serversOf D (servers.map ServerRow.withoutPassword) locationID
      = (Fleet.serversOf D servers locationID).map ServerRow.withoutPassword := by
  unfold Fleet.serversOf
  rw [List.filter_map]
  exact (List.map_insertionSort _ _ ServerRow.withoutPassword _ (fun _ _ _ _ => Iff.rfl)).symm

theorem getServerHealth_congr (D : Driver) (T T' : Fleet)
    (hh : T'.server_health = T.server_health) (serverID : String) :
    getServerHealth D T' serverID = getServerHealth D T serverID := by
  unfold getServerHealth
  rw [hh]

theorem getServerUserCount_congr (D : Driver) (T T' : Fleet) (hu : T'.users = T.users)
    (serverID : String) :
    getServerUserCount D T' serverID = getServerUserCount D T serverID := by
  unfold getServerUserCount
  rw [hu]

theorem scanServer_withoutPassword {φ : Type} (D : Driver) (A : Float64 φ) (now : Time)
    (T T' : Fleet) (hh : T'.server_health = T.server_health) (hu : T'.users = T.users)
    (row : ServerRow) :
    scanServer D A now T' row.withoutPassword = scanServer D A now T row := by
  unfold scanServer
  rw [getServerHealth_congr D T T' hh, getServerUserCount_congr D T T' hu]
  rfl

theorem scanServers_withoutPassword {φ : Type} (D : Driver) (A : Float64 φ) (now : Nat → Time)
    (T T' : Fleet) (hh : T'.server_health = T.server_health) (hu : T'.users = T.users)
    (rows : List ServerRow) :
    ∀ (i : Nat) (servers : List (ServerWithHealth φ)),
      scanServers D A now T' (rows.map ServerRow.withoutPassword) i servers
        = scanServers D A now T rows i servers := by
  induction rows with
  | nil => intro i servers; rfl
  | cons row rest ih =>
    intro i servers
    simp only [List.map, scanServers]
    rw [scanServer_withoutPassword D A (now i) T T' hh hu row, ih]

/-- The answer of getServersForLocation does not change when the password
column of the table `servers` is cleared. -/
theorem getServersForLocation_withoutPasswords {φ : Type} (D : Driver) (A : Float64 φ)
    (now : Nat → Time) (T : Fleet) (locationID : Int) :
    getServersForLocation D A now T.withoutPasswords locationID
      = getServersForLocation D A now T locationID := by
  unfold getServersForLocation
  cases D.queryErr with
  | some err => rfl
  | none =>
    show scanServers D A now T.withoutPasswords
        (Fleet.serversOf D (T.servers.map ServerRow.withoutPassword) locationID) 0 []
      = scanServers D A now T (Fleet.serversOf D T.servers locationID) 0 []
    rw [serversOf_withoutPassword]
    exact scanServers_withoutPassword D A now T T.withoutPasswords rfl rfl _ 0 []

theorem scanServers_password {φ : Type} (D : Driver) (A : Float64 φ) (now : Nat → Time)
    (T : Fleet) (rows : List ServerRow) :
    ∀ (i : Nat) (servers : List (ServerWithHealth φ)),
      (∀ s ∈ servers, s.Password = "") →
      ∀ s ∈ (scanServers D A now T rows i servers).1, s.Password = "" := by
  induction rows with
  | nil => intro i servers hall; exact hall
  | cons row rest ih =>
    intro i servers hall
    unfold scanServers
    cases D.scanErr i with
    | some err =>
      intro s hs
      cases hs
    | none =>
      apply ih
      intro s hs
      rcases List.mem_append.mp hs with hs | hs
      · exact hall s hs
      · rw [List.mem_singleton.mp hs]
        rfl

/-- C22: for two states of the tables that differ only in the password column
of `servers`, getServersForLocation returns the same records and the same error,
whatever the driver, the clock and the location; and the credential field of
every record it returns is empty. -/
theorem servers_independent_of_password {φ : Type} (D : Driver) (A : Float64 φ)
    (now : Nat → Time) (T1 T2 : Fleet) (locationID : Int)
    (h : T1.withoutPasswords = T2.withoutPasswords) :
    getServersForLocation D A now T1 locationID = getServersForLocation D A now T2 locationID ∧
    ∀ s ∈ (getServersForLocation D A now T1 locationID).1, s.Password = "" := by
  constructor
  · rw [← getServersForLocation_withoutPasswords D A now T1,
      ← getServersForLocation_withoutPasswords D A now T2, h]
  · unfold getServersForLocation
    cases D.queryErr with
    | some err =>
      intro s hs
      cases hs
    | none =>
      exact scanServers_password D A now T1 _ 0 [] (fun s hs => by cases hs)

end Api

namespace Api

open Sql

/-- Two states of `demoFleet` with other stored passwords give the same records,
those of `node-a` and `node-b` in the order of their names. -/
theorem servers_independent_of_password_witness :
    (demoFleet "s3cret-a" "s3cret-b").withoutPasswords
      = (demoFleet "hunter2" "").withoutPasswords ∧
    getServersForLocation demoDriver demoFloat64 (fun _ => 0) (demoFleet "s3cret-a" "s3cret-b") 1
      = getServersForLocation demoDriver demoFloat64 (fun _ => 0) (demoFleet "hunter2" "") 1 ∧
    (getServersForLocation demoDriver demoFloat64 (fun _ => 0)
      (demoFleet "s3cret-a" "s3cret-b") 1).1.map (fun s => (s.Name, s.Password, s.UserCount))
      = [("node-a", "", 1), ("node-b", "", 0)] :=
  ⟨by decide,
    (servers_independent_of_password demoDriver demoFloat64 (fun _ => 0)
      (demoFleet "s3cret-a" "s3cret-b") (demoFleet "hunter2" "") 1 (by decide)).1,
    by decide⟩

end Api

namespace Hmac

end Hmac

namespace Shared

open Jwt

end Shared

/-! ## Claim on the validation under another secret -/

namespace Shared

open Jwt

end Shared
